import Mathlib

/-!
# Monitor.cpp (dimmer): monitor identity fusion and the configuration cache

A shallow embedding of `src/Monitor.cpp`.  The file-level statics
(`monitorOptions`, `pollingEnabled`, `globalEnabled`) become an explicit `State`;
the two operating-system enumerations read by `queryMonitors` become an explicit
`Displays` value; functions of `json.hpp` and `Util.h` that `Monitor.cpp` only
calls are either parameters (`Platform`) or small models carrying a doc comment
that says so.
-/

set_option autoImplicit false

namespace Dimmer

/-! ## Strings -/

/-- A wide string (`std::wstring`, or a NUL-terminated `WCHAR` buffer): the
characters before the terminator.  `wcslen` is `List.length`, `wcscmp(a, b) == 0`
is `a = b`, and storing `0x00` at position `n` of a buffer holding more than `n`
characters is `List.take n`. -/
abbrev WString := List Char

/-! ## Operating-system enumerations read by `queryMonitors` -/

/-- One display reported by `EnumDisplayMonitors`: the `HMONITOR` handed to the
callback and the `szDevice` that `GetMonitorInfo` reports for it. -/
structure CoarseDisplay where
  handle : Nat
  szDevice : WString
deriving DecidableEq, Repr

/-- The two fields of `DISPLAY_DEVICE` that `queryMonitors` reads. -/
structure DISPLAY_DEVICE where
  DeviceName : WString
  DeviceID : WString
deriving DecidableEq, Repr

/-- One ordinal of `EnumDisplayDevices(NULL, screenID, &dispDevice, 0)`: the adapter
name it returns, and what the re-query
`EnumDisplayDevices(name, 0, &dispDevice, EDD_GET_DEVICE_INTERFACE_NAME)` leaves in
`dispDevice` (`none` when that call returns `FALSE`). -/
structure Adapter where
  name : WString
  requery : Option DISPLAY_DEVICE
deriving DecidableEq, Repr

/-- What the operating system answers during one call of `queryMonitors`: the
displays in callback order, and the adapters for `screenID = 0, 1, 2, ...` up to the
first ordinal for which `EnumDisplayDevices` returns `FALSE`. -/
structure Displays where
  coarse : List CoarseDisplay
  adapters : List Adapter
deriving DecidableEq, Repr

/-! ## Monitor -/

/-- Modelled from the spec: the `Monitor` struct is declared in `Monitor.h`, which is
not among the sources.  Per the spec's MonitorDescriptor it has a `handle`, an
`index`, the short device name of the coarse pass (`info.szDevice`) and the `id`
read by `getId()` and written by `setId()`. -/
structure Monitor where
  handle : Nat
  index : Nat
  szDevice : WString
  id : WString
deriving DecidableEq, Repr

/-- Modelled from the spec: the constructor `Monitor(HMONITOR, int)` of `Monitor.h`.
The spec says the coarse pass alone makes every monitor's `id` its
`geometryDeviceName`, so the constructed `id` is `szDevice`. -/
def Monitor.new (d : CoarseDisplay) (index : Nat) : Monitor :=
  { handle := d.handle, index := index, szDevice := d.szDevice, id := d.szDevice }

/-- Modelled from the spec: `Monitor::getId()` of `Monitor.h` reads the `id` field. -/
def Monitor.getId (m : Monitor) : WString := m.id

/-- Modelled from the spec: `Monitor::setId()` of `Monitor.h` overwrites the `id`
field and nothing else. -/
def Monitor.setId (m : Monitor) (id : WString) : Monitor := { m with id := id }

/-! ## queryMonitors -/

/-- `MonitorEnumProc`: `index = (int) monitors->size()`, then
`monitors->push_back(Monitor(monitor, index))`.  The number of displays is far inside
the range of `int`, so the cast keeps the value. -/
def MonitorEnumProc (monitors : List Monitor) (d : CoarseDisplay) : List Monitor :=
  monitors ++ [Monitor.new d monitors.length]

/-- `EnumDisplayMonitors(nullptr, nullptr, &MonitorEnumProc, &result)` on an empty
`result`: the callback runs once per display, in order (it always returns `TRUE`). -/
def EnumDisplayMonitors (ds : List CoarseDisplay) : List Monitor :=
  ds.foldl MonitorEnumProc []

/-- Lines 115-122: `newname` is a copy of `dispDevice.DeviceName`; when it is longer
than `szDevice`, a terminator is stored at index `wcslen(szDevice)`. -/
def truncate (DeviceName szDevice : WString) : WString :=
  if DeviceName.length > szDevice.length then DeviceName.take szDevice.length
  else DeviceName

/-- Line 124: `wcscmp(result[i].info.szDevice, newname) == 0`. -/
def nameMatches (szDevice DeviceName : WString) : Bool :=
  decide (szDevice = truncate DeviceName szDevice)

/-- Body of the loop `for (int i = 0; i < result.size(); i++)` for one monitor. -/
def fuseOne (dd : DISPLAY_DEVICE) (m : Monitor) : Monitor :=
  if nameMatches m.szDevice dd.DeviceName then m.setId dd.DeviceID else m

/-- The loop of lines 113-127: every element of `result` is visited once, in place. -/
def fuse (dd : DISPLAY_DEVICE) (result : List Monitor) : List Monitor :=
  result.map (fuseOne dd)

/-- One iteration of the `while` loop of lines 101-131. -/
def adapterStep (result : List Monitor) (a : Adapter) : List Monitor :=
  match a.requery with
  | some dd => fuse dd result
  | none => result

/-- `queryMonitors()`. -/
def queryMonitors (os : Displays) : List Monitor :=
  os.adapters.foldl adapterStep (EnumDisplayMonitors os.coarse)

/-- The detailed-pass entries: the re-query results of the adapters whose re-query
succeeded, in enumeration order. -/
def detailedEntries (os : Displays) : List DISPLAY_DEVICE :=
  os.adapters.filterMap (fun a => a.requery)

/-- What the `while` loop does to one descriptor: the detailed entries applied to it
one after the other, in enumeration order. -/
def fuseAll (entries : List DISPLAY_DEVICE) (m : Monitor) : Monitor :=
  entries.foldl (fun acc dd => fuseOne dd acc) m

/-! ## Numbers -/

/-- A C `float`, kept as its IEEE-754 binary32 bit pattern.  Monitor.cpp only
stores, copies and converts such values. -/
structure CFloat where
  bits : Nat
deriving DecidableEq, Repr

/-- A C `double` (the `number_float_t` of json.hpp), kept as a bit pattern.  Which
pattern a `float` converts to is `Platform.toDouble`. -/
structure CDouble where
  bits : Nat
deriving DecidableEq, Repr

/-- `constexpr float DEFAULT_OPACITY = 0.0f`: the all-zero bit pattern. -/
def DEFAULT_OPACITY : CFloat := ⟨0⟩

/-- `constexpr int DEFAULT_TEMPERATURE = -1`. -/
def DEFAULT_TEMPERATURE : Int := -1

/-! ## MonitorOptions and the statics -/

/-- `struct MonitorOptions`. -/
structure MonitorOptions where
  opacity : CFloat
  temperature : Int
  enabled : Bool
deriving DecidableEq, Repr

/-- The constructor `MonitorOptions()`. -/
def MonitorOptions.new : MonitorOptions :=
  { opacity := DEFAULT_OPACITY, temperature := DEFAULT_TEMPERATURE, enabled := true }

/-- The three statics of Monitor.cpp.  `monitorOptions` is a
`std::map<std::wstring, std::shared_ptr<MonitorOptions>>`; Monitor.cpp never iterates
over it, so it is kept as the finite partial function it denotes (`none`: no entry
for that key). -/
structure State where
  monitorOptions : WString → Option MonitorOptions
  pollingEnabled : Bool
  globalEnabled : Bool

/-- The statics as initialised at process start (lines 58-60). -/
def State.init : State :=
  { monitorOptions := fun _ => none, pollingEnabled := false, globalEnabled := true }

/-- `monitorOptions[id] = p` for a freshly made object `p`, and equally a write
through the reference `*monitorOptions[id]`: the entry for `id` now holds `o`. -/
def State.insert (s : State) (id : WString) (o : MonitorOptions) : State :=
  { s with monitorOptions := fun k => if k = id then some o else s.monitorOptions k }

/-- `options(monitor)`: the entry for `monitor.getId()` is created with the default
constructor when `find` does not see it.  The returned reference is
`*monitorOptions[id]` of the returned state; the first component is the object it
refers to. -/
def options (s : State) (monitor : Monitor) : MonitorOptions × State :=
  let id := monitor.getId
  match s.monitorOptions id with
  | some o => (o, s)
  | none => (MonitorOptions.new, s.insert id MonitorOptions.new)

/-- `getMonitorOpacity`. -/
def getMonitorOpacity (s : State) (monitor : Monitor) : CFloat × State :=
  ((options s monitor).1.opacity, (options s monitor).2)

/-- `getMonitorTemperature`. -/
def getMonitorTemperature (s : State) (monitor : Monitor) : Int × State :=
  ((options s monitor).1.temperature, (options s monitor).2)

/-- `isMonitorEnabled`. -/
def isMonitorEnabled (s : State) (monitor : Monitor) : Bool × State :=
  ((options s monitor).1.enabled, (options s monitor).2)

/-- `isPollingEnabled`. -/
def isPollingEnabled (s : State) : Bool := s.pollingEnabled

/-- `isDimmerEnabled`. -/
def isDimmerEnabled (s : State) : Bool := s.globalEnabled

/-! ## json.hpp and Util.h -/

/-- Modelled from the spec: the value type `json` of json.hpp (the nlohmann library
named by `using namespace nlohmann`), which is not among the sources.  A document is
null, a boolean, an integer number, a floating number, a string, an array or an
object.  The library's two integer kinds (`number_integer_t`, `number_unsigned_t`)
are one constructor holding the value.  An object is a `std::map` from UTF-8 keys to
values, given here as the list of its entries in iteration order. -/
inductive Json where
  | null
  | boolean (b : Bool)
  | number_integer (i : Int)
  | number_float (d : CDouble)
  | string (s : String)
  | array (xs : List Json)
  | object (kvs : List (String × Json))

/-- Functions that Monitor.cpp calls and neither defines nor fixes the meaning of:
text to document and back (json.hpp), the numeric conversions behind
`value<float>` and `value<int>` (json.hpp), the C++ conversion from `float` to
`double`, and `getDataDirectory()` (Util.h).  `none` stands for a thrown exception. -/
structure Platform where
  parse : String → Option Json
  dump : Json → String
  getFloat : Json → Option CFloat
  getInt : Json → Option Int
  toDouble : CFloat → CDouble
  dataDirectory : WString

/-- Modelled from the spec: `u16to8` of Util.h, which is not among the sources.  The
spec has the identifier re-encoded from UTF-16 to UTF-8 with the full string
preserved; both encodings are kept here as the sequence of characters they encode. -/
def u16to8 (w : WString) : String := String.mk w

/-- Modelled from the spec: `u8to16` of Util.h, which is not among the sources; the
re-encoding from UTF-8 back to UTF-16. -/
def u8to16 (s : String) : WString := s.data

/-- Byte-wise `std::string` comparison, the key order of a json object.  For UTF-8
text this is the lexicographic order of the code points. -/
def keyLt : List Char → List Char → Bool
  | [], [] => false
  | [], _ :: _ => true
  | _ :: _, [] => false
  | a :: as, b :: bs =>
    if a.toNat < b.toNat then true
    else if b.toNat < a.toNat then false
    else keyLt as bs

/-- The `find` of a json object's `std::map`. -/
def objFind : List (String × Json) → String → Option Json
  | [], _ => none
  | (k, v) :: rest, key => if k = key then some v else objFind rest key

/-- Assignment through `operator[]` inside a json object's `std::map`: the value of
an existing key is replaced, a new key is inserted at its place in key order. -/
def objInsert : List (String × Json) → String → Json → List (String × Json)
  | [], key, v => [(key, v)]
  | (k, x) :: rest, key, v =>
    if k = key then (key, v) :: rest
    else if keyLt key.data k.data then (key, v) :: (k, x) :: rest
    else (k, x) :: objInsert rest key v

/-- Modelled from the spec: `json::find(key)` of json.hpp; `none` is `end()`, which
is also the answer for a value that is not an object. -/
def Json.find (j : Json) (key : String) : Option Json :=
  match j with
  | .object kvs => objFind kvs key
  | _ => none

/-- Modelled from the spec: `j[key] = v` of json.hpp.  A null value first becomes an
empty object.  (On the other non-object values `operator[]` throws; Monitor.cpp only
applies it to values that are null or an object, and the model leaves the others
as they are.) -/
def Json.set (j : Json) (key : String) (v : Json) : Json :=
  match j with
  | .null => .object [(key, v)]
  | .object kvs => .object (objInsert kvs key v)
  | other => other

/-- Modelled from the spec: `get<bool>()` of json.hpp; only a boolean converts. -/
def Json.getBool : Json → Option Bool
  | .boolean b => some b
  | _ => none

/-- Modelled from the spec: `j.value<T>(key, default_value)` of json.hpp, with `get`
the conversion to `T`.  On an object: the converted value of `key` when the key is
there (the conversion may throw), `default_value` when it is not.  On anything else
the call throws. -/
def Json.value {T : Type} (get : Json → Option T) (j : Json) (key : String)
    (default_value : T) : Option T :=
  match j with
  | .object kvs =>
    match objFind kvs key with
    | some v => get v
    | none => some default_value
  | _ => none

/-- The keys of a json value: those of its entries when it is an object, none
otherwise. -/
def Json.keys : Json → List String
  | .object kvs => kvs.map Prod.fst
  | _ => []

/-- The entries of a json value: those of the `std::map` when it is an object, none
otherwise. -/
def Json.entries : Json → List (String × Json)
  | .object kvs => kvs
  | _ => []

/-- The invariant of a json object's `std::map`: keys strictly increasing in
iteration order. -/
def keysSorted (kvs : List (String × Json)) : Prop :=
  kvs.Pairwise (fun a b => keyLt a.1.data b.1.data = true)

/-! ## File gateway -/

/-- Modelled from the spec: the file gateway behind `fileToString` and `stringToFile`
of Util.h.  `files path` is the text a read of `path` returns (`none`: the read
fails); `writes` lists the `stringToFile` calls, oldest first. -/
structure Disk where
  files : WString → Option String
  writes : List (WString × String)

/-- Modelled from the spec: `fileToString(path)`; `none` when the read throws. -/
def fileToString (d : Disk) (path : WString) : Option String := d.files path

/-- Modelled from the spec: `stringToFile(path, text)`: the call is recorded and a
later read of `path` returns `text`.  A failing write is not modelled. -/
def stringToFile (d : Disk) (path : WString) (text : String) : Disk :=
  { files := fun p => if p = path then some text else d.files p,
    writes := d.writes ++ [(path, text)] }

/-- `getConfigFilename()`. -/
def getConfigFilename (P : Platform) : WString :=
  P.dataDirectory ++ "\\config.json".data

/-- `getConfigFilename(configName)`. -/
def getConfigFilenameNamed (P : Platform) (configName : WString) : WString :=
  P.dataDirectory ++ "\\".data ++ configName ++ ".json".data

/-! ## parseConfig -/

/-- Lines 191-194: a default-constructed `MonitorOptions` whose three fields are then
assigned from `value`.  `none` when one of the three `value<T>` calls throws. -/
def parseEntry (P : Platform) (value : Json) : Option MonitorOptions :=
  match value.value P.getFloat "opacity" DEFAULT_OPACITY with
  | none => none
  | some opacity =>
    match value.value P.getInt "temperature" DEFAULT_TEMPERATURE with
    | none => none
    | some temperature =>
      match value.value Json.getBool "enabled" true with
      | none => none
      | some enabled =>
        some { opacity := opacity, temperature := temperature, enabled := enabled }

/-- The loop of lines 188-196 over the entries of an object, in iteration order.  The
second component tells whether the loop was left by an exception; the state is the
one reached at that point. -/
def parseMonitorsLoop (P : Platform) : List (String × Json) → State → State × Bool
  | [], s => (s, false)
  | (k, value) :: rest, s =>
    match parseEntry P value with
    | none => (s, true)
    | some o => parseMonitorsLoop P rest (s.insert (u8to16 k) o)

/-- Lines 188-196 for the value `*m` found under "monitors".  A null value and an
empty array have `begin() == end()`; every other non-object value enters the loop
once and `it.key()` throws. -/
def parseMonitors (P : Platform) (m : Json) (s : State) : State × Bool :=
  match m with
  | .object kvs => parseMonitorsLoop P kvs s
  | .null => (s, false)
  | .array [] => (s, false)
  | _ => (s, true)

/-- Lines 201-202 for the value `*g` found under "general": each right-hand side is
evaluated, and may throw, before its assignment. -/
def parseGeneral (g : Json) (s : State) : State × Bool :=
  match g.value Json.getBool "pollingEnabled" false with
  | none => (s, true)
  | some p =>
    match g.value Json.getBool "globalEnabled" true with
    | none => ({ s with pollingEnabled := p }, true)
    | some e => ({ s with pollingEnabled := p, globalEnabled := e }, false)

/-- Lines 186-197: the "monitors" section of the document `j`, when `find` sees one. -/
def parseMonitorsSection (P : Platform) (j : Json) (s : State) : State × Bool :=
  match j.find "monitors" with
  | some m => parseMonitors P m s
  | none => (s, false)

/-- Lines 199-203: the "general" section of the document `j`, when `find` sees one. -/
def parseGeneralSection (j : Json) (s : State) : State × Bool :=
  match j.find "general" with
  | some g => parseGeneral g s
  | none => (s, false)

/-- The `try` block of `parseConfig` (lines 185-203): the state when the block is
left, and whether it was left by an exception. -/
def parseConfigTry (P : Platform) (config : String) (s : State) : State × Bool :=
  match P.parse config with
  | none => (s, true)
  | some j =>
    let r := parseMonitorsSection P j s
    if r.2 then r else parseGeneralSection j r.1

/-- `parseConfig(config)`: the `try` block, with `catch (...)` discarding whatever was
thrown. -/
def parseConfig (P : Platform) (config : String) (s : State) : State :=
  (parseConfigTry P config s).1

/-- `loadConfig()`: the read is outside any `try`.  The second component tells
whether an exception leaves the function. -/
def loadConfig (P : Platform) (d : Disk) (s : State) : State × Bool :=
  match fileToString d (getConfigFilename P) with
  | none => (s, true)
  | some config => (parseConfig P config s, false)

/-- `loadConfig(configName)`: read and parse inside `try`, `catch (...)` empty. -/
def loadConfigNamed (P : Platform) (configName : WString) (d : Disk) (s : State) : State :=
  match fileToString d (getConfigFilenameNamed P configName) with
  | none => s
  | some config => parseConfig P config s

/-! ## saveConfig -/

/-- The object `{ {"opacity", o}, {"temperature", t}, {"enabled", e} }` of lines
232-236, entries in key order. -/
def entryJson (P : Platform) (opacity : CFloat) (temperature : Int) (enabled : Bool) : Json :=
  .object [("enabled", .boolean enabled),
           ("opacity", .number_float (P.toDouble opacity)),
           ("temperature", .number_integer temperature)]

/-- Body of the loop of lines 231-237 for one monitor: the three getters run in the
order of the initializer list, then the entry is assigned under the UTF-8 key. -/
def saveMonitor (P : Platform) (acc : Json × State) (monitor : Monitor) : Json × State :=
  let r1 := getMonitorOpacity acc.2 monitor
  let r2 := getMonitorTemperature r1.2 monitor
  let r3 := isMonitorEnabled r2.2 monitor
  (acc.1.set (u16to8 monitor.getId) (entryJson P r1.1 r2.1 r3.1), r3.2)

/-- The entry `saveConfig` writes for the id `w` when the getters read the cache of
`s`: the stored options, or the default ones when there is no entry yet. -/
def entryFor (P : Platform) (s : State) (w : WString) : Json :=
  entryJson P ((s.monitorOptions w).getD MonitorOptions.new).opacity
    ((s.monitorOptions w).getD MonitorOptions.new).temperature
    ((s.monitorOptions w).getD MonitorOptions.new).enabled

/-- The object of lines 239-242, entries in key order. -/
def generalJson (s : State) : Json :=
  .object [("globalEnabled", .boolean s.globalEnabled),
           ("pollingEnabled", .boolean s.pollingEnabled)]

/-- Lines 227-242 of `saveConfig`: the document `j` and the statics after building
it.  `{ { "monitors", { } } }` is an object whose "monitors" value is null until the
first assignment through `m[...]`. -/
def saveConfigJson (P : Platform) (os : Displays) (s : State) : Json × State :=
  let r := (queryMonitors os).foldl (saveMonitor P) (Json.null, s)
  ((Json.object [("monitors", r.1)]).set "general" (generalJson r.2), r.2)

/-- `saveConfig()`. -/
def saveConfig (P : Platform) (os : Displays) (s : State) (d : Disk) : State × Disk :=
  let r := saveConfigJson P os s
  (r.2, stringToFile d (getConfigFilename P) (P.dump r.1))

/-! ## Setters -/

/-- `setDimmerEnabled`. -/
def setDimmerEnabled (P : Platform) (os : Displays) (enabled : Bool)
    (s : State) (d : Disk) : State × Disk :=
  if s.globalEnabled ≠ enabled then saveConfig P os { s with globalEnabled := enabled } d
  else (s, d)


/-- A field of an object is acceptable to `value<T>`: absent, or convertible. -/
def fieldOk {T : Type} (get : Json → Option T) (kvs : List (String × Json)) (key : String) :
    Bool :=
  match objFind kvs key with
  | none => true
  | some v => (get v).isSome

/-- An entry of the "monitors" section as in the schema: an object whose `opacity`,
`temperature` and `enabled`, where present, are a float, an int and a bool. -/
def entryWellFormed (P : Platform) : Json → Bool
  | .object kvs =>
    fieldOk P.getFloat kvs "opacity" && fieldOk P.getInt kvs "temperature" &&
      fieldOk Json.getBool kvs "enabled"
  | _ => false

/-- The "monitors" section as in the schema: an object of well-formed entries. -/
def monitorsWellFormed (P : Platform) : Json → Bool
  | .object kvs => kvs.all (fun e => entryWellFormed P e.2)
  | _ => false

/-- The "general" section as in the schema: an object whose two flags, where present,
are booleans. -/
def generalWellFormed : Json → Bool
  | .object kvs =>
    fieldOk Json.getBool kvs "pollingEnabled" && fieldOk Json.getBool kvs "globalEnabled"
  | _ => false

/-- A document as in the schema: an object whose "monitors" and "general" sections,
where present, are well formed. -/
def wellFormed (P : Platform) : Json → Bool
  | .object kvs =>
    (match objFind kvs "monitors" with
      | none => true
      | some m => monitorsWellFormed P m) &&
    (match objFind kvs "general" with
      | none => true
      | some g => generalWellFormed g)
  | _ => false

/-- The boolean a flag of the "general" section holds, `dflt` when the key is not
there. -/
def flagOr (g : Json) (key : String) (dflt : Bool) : Bool :=
  match g.find key with
  | some (.boolean b) => b
  | _ => dflt

/-- The options `o` hold what an entry with the given fields says: for each of the
three fields the converted value where the key is present, the default where it is
not. -/
def entryAgrees (P : Platform) (fields : List (String × Json)) (o : MonitorOptions) : Prop :=
  (match objFind fields "opacity" with
    | none => o.opacity = DEFAULT_OPACITY
    | some x => P.getFloat x = some o.opacity) ∧
  (match objFind fields "temperature" with
    | none => o.temperature = DEFAULT_TEMPERATURE
    | some x => P.getInt x = some o.temperature) ∧
  (match objFind fields "enabled" with
    | none => o.enabled = true
    | some x => x = Json.boolean o.enabled)

/-! ## Sample inputs -/

/-- Two displays; the adapter list has one adapter whose re-query fails and one whose
re-query names the first display. -/
def sampleDisplays : Displays :=
  { coarse := [⟨7, "DISPLAY1".data⟩, ⟨9, "DISPLAY2".data⟩],
    adapters := [⟨"DISPLAY0".data, none⟩,
                 ⟨"DISPLAY1".data, some ⟨"DISPLAY1\\Monitor0".data, "MONITOR#A#1".data⟩⟩] }

/-- Displays "DISPLAY1" and "DISPLAY10", and a single detailed entry, the monitor of
the adapter "DISPLAY10". -/
def samplePrefixDisplays : Displays :=
  { coarse := [⟨7, "DISPLAY1".data⟩, ⟨9, "DISPLAY10".data⟩],
    adapters := [⟨"DISPLAY10".data,
                  some ⟨"DISPLAY10\\Monitor0".data, "MONITOR#B#10".data⟩⟩] }

/-- Displays "DISPLAY1" and "DISPLAY10" with a detailed entry for each adapter, in
ordinal order; both entries match "DISPLAY1". -/
def sampleTwoMatches : Displays :=
  { coarse := [⟨7, "DISPLAY1".data⟩, ⟨9, "DISPLAY10".data⟩],
    adapters := [⟨"DISPLAY1".data, some ⟨"DISPLAY1\\Monitor0".data, "MONITOR#A#1".data⟩⟩,
                 ⟨"DISPLAY10".data,
                  some ⟨"DISPLAY10\\Monitor0".data, "MONITOR#B#10".data⟩⟩] }

/-- A cache with an entry for "MONITOR#A#1" (opacity 0.5f) and one for "GONE#9", and
both flags away from their defaults. -/
def sampleState : State :=
  { monitorOptions := fun k =>
      if k = "MONITOR#A#1".data then some ⟨⟨1056964608⟩, 3400, false⟩
      else if k = "GONE#9".data then some ⟨⟨0⟩, 5000, true⟩
      else none,
    pollingEnabled := true,
    globalEnabled := false }

/-- The document
`{"general":5,"monitors":{"A":{"temperature":3000}}}`:
a well-formed "monitors" section and a "general" section that is a number. -/
def sampleBadGeneral : Json :=
  .object [("general", .number_integer 5),
           ("monitors", .object [("A", .object [("temperature", .number_integer 3000)])])]

/-- The text of `sampleBadGeneral`. -/
def sampleBadGeneralText : String :=
  "\x7b\"general\":5,\"monitors\":\x7b\"A\":\x7b\"temperature\":3000\x7d\x7d\x7d"

/-- The document
`{"general":{"pollingEnabled":true},"monitors":{"A":{"enabled":false},"B":"x","C":{}}}`:
the second monitor entry is a string. -/
def sampleBadEntry : Json :=
  .object [("general", .object [("pollingEnabled", .boolean true)]),
           ("monitors", .object [("A", .object [("enabled", .boolean false)]),
                                 ("B", .string "x"),
                                 ("C", .object [])])]

/-- The text of `sampleBadEntry`. -/
def sampleBadEntryText : String :=
  "\x7b\"general\":\x7b\"pollingEnabled\":true\x7d,\"monitors\":\x7b\"A\":\x7b\"enabled\":false\x7d,\"B\":\"x\",\"C\":\x7b\x7d\x7d\x7d"

/-- The document
`{"general":{"globalEnabled":5,"pollingEnabled":true},"monitors":{"A":{"enabled":false}}}`:
the only defect is a `globalEnabled` that is a number. -/
def sampleBadFlag : Json :=
  .object [("general", .object [("globalEnabled", .number_integer 5),
                                ("pollingEnabled", .boolean true)]),
           ("monitors", .object [("A", .object [("enabled", .boolean false)])])]

/-- The text of `sampleBadFlag`. -/
def sampleBadFlagText : String :=
  "\x7b\"general\":\x7b\"globalEnabled\":5,\"pollingEnabled\":true\x7d,\"monitors\":\x7b\"A\":\x7b\"enabled\":false\x7d\x7d\x7d"

/-- The document
`{"general":{"pollingEnabled":true},"monitors":{"MONITOR#A#1":{"temperature":3000},"Z":{"enabled":false}}}`:
well formed, with fields left out. -/
def sampleDoc : Json :=
  .object [("general", .object [("pollingEnabled", .boolean true)]),
           ("monitors", .object [("MONITOR#A#1", .object [("temperature", .number_integer 3000)]),
                                 ("Z", .object [("enabled", .boolean false)])])]

/-- The text of `sampleDoc`. -/
def sampleDocText : String :=
  "\x7b\"general\":\x7b\"pollingEnabled\":true\x7d,\"monitors\":\x7b\"MONITOR#A#1\":\x7b\"temperature\":3000\x7d,\"Z\":\x7b\"enabled\":false\x7d\x7d\x7d"

/-- The document
`{"general":{"globalEnabled":false,"pollingEnabled":true},"monitors":{"DISPLAY2":{"enabled":true,"opacity":0.0,"temperature":-1},"MONITOR#A#1":{"enabled":false,"opacity":0.5,"temperature":3400}}}`:
what `saveConfig` builds from `sampleState` when the displays are `sampleDisplays`
(each opacity with the bits of the `float` it comes from, as `samplePlatform` has it). -/
def sampleSaved : Json :=
  .object [("general", .object [("globalEnabled", .boolean false),
                                ("pollingEnabled", .boolean true)]),
           ("monitors", .object
              [("DISPLAY2", .object [("enabled", .boolean true),
                                     ("opacity", .number_float ⟨0⟩),
                                     ("temperature", .number_integer (-1))]),
               ("MONITOR#A#1", .object [("enabled", .boolean false),
                                        ("opacity", .number_float ⟨1056964608⟩),
                                        ("temperature", .number_integer 3400)])])]

/-- The text of `sampleSaved`. -/
def sampleSavedText : String :=
  "\x7b\"general\":\x7b\"globalEnabled\":false,\"pollingEnabled\":true\x7d,\"monitors\":\x7b\"DISPLAY2\":\x7b\"enabled\":true,\"opacity\":0.0,\"temperature\":-1\x7d,\"MONITOR#A#1\":\x7b\"enabled\":false,\"opacity\":0.5,\"temperature\":3400\x7d\x7d\x7d"

/-- A disk with no readable file and no write so far. -/
def sampleDisk : Disk :=
  { files := fun _ => none, writes := [] }

/-- A disk on which only "C:\dimmer\night.json" can be read; it holds the text of
`sampleDoc`. -/
def sampleNightDisk : Disk :=
  { files := fun p => if p = "C:\\dimmer\\night.json".data then some sampleDocText else none,
    writes := [] }

/-- The texts the sample platform can read, each with the document it stands for. -/
def sampleTexts : List (String × Json) :=
  [("\x7b\x7d", .object []),
   (sampleBadGeneralText, sampleBadGeneral),
   (sampleBadEntryText, sampleBadEntry),
   (sampleBadFlagText, sampleBadFlag),
   (sampleDocText, sampleDoc),
   (sampleSavedText, sampleSaved)]

/-- A platform for evaluating the definitions on concrete inputs.  Texts are read
through the table `sampleTexts` (any other text, such as "not json", is rejected) and
the only text written is `sampleSavedText`.  The numeric conversions are stand-ins:
`value<float>` accepts floating numbers and `value<int>` integer numbers only, and a
`float` and the `double` it converts to are given the same bits. -/
def samplePlatform : Platform :=
  { parse := fun text => objFind sampleTexts text,
    dump := fun _ => sampleSavedText,
    getFloat := fun j =>
      match j with
      | .number_float d => some ⟨d.bits⟩
      | _ => none,
    getInt := fun j =>
      match j with
      | .number_integer i => some i
      | _ => none,
    toDouble := fun f => ⟨f.bits⟩,
    dataDirectory := "C:\\dimmer".data }

/-! ## A platform with IEEE-754 conversions -/

/-- The conversion from `float` to `double` on bit patterns: the same number in
binary64 (every binary32 number is one), an infinity as the infinity of the same sign,
a NaN as a quiet NaN carrying the payload. -/
def floatToDoubleBits (b : Nat) : Nat :=
  let sign := b / 2 ^ 31 % 2
  let e := b / 2 ^ 23 % 256
  let m := b % 2 ^ 23
  if e = 255 then
    if m = 0 then sign * 2 ^ 63 + 2047 * 2 ^ 52
    else sign * 2 ^ 63 + 2047 * 2 ^ 52 + 2 ^ 51 + m % 2 ^ 22 * 2 ^ 29
  else if e = 0 then
    if m = 0 then sign * 2 ^ 63
    else sign * 2 ^ 63 + (Nat.log2 m + 874) * 2 ^ 52
      + (m - 2 ^ Nat.log2 m) * 2 ^ (52 - Nat.log2 m)
  else sign * 2 ^ 63 + (e + 896) * 2 ^ 52 + m * 2 ^ 29

/-- The conversion from `double` to `float` on bit patterns.  A number that binary32
holds is converted to itself; between two binary32 numbers the one nearer to zero is
taken (C++ leaves the choice of neighbour to the implementation); above the binary32
range the result is the infinity; a NaN stays a NaN. -/
def doubleToFloatBits (b : Nat) : Nat :=
  let sign := b / 2 ^ 63 % 2
  let e := b / 2 ^ 52 % 2048
  let m := b % 2 ^ 52
  if e = 2047 then
    if m = 0 then sign * 2 ^ 31 + 255 * 2 ^ 23
    else sign * 2 ^ 31 + 255 * 2 ^ 23 + 2 ^ 22 + m / 2 ^ 29 % 2 ^ 22
  else if e > 1150 then sign * 2 ^ 31 + 255 * 2 ^ 23
  else if e ≥ 897 then sign * 2 ^ 31 + (e - 896) * 2 ^ 23 + m / 2 ^ 29
  else if e ≥ 874 then sign * 2 ^ 31 + (2 ^ 52 + m) / 2 ^ (926 - e)
  else sign * 2 ^ 31

/-- A `double` that is an infinity or a NaN: all exponent bits set. -/
def CDouble.nonFinite (d : CDouble) : Bool :=
  decide (d.bits / 2 ^ 52 % 2048 = 2047)

/-- `static_cast<int>` of a 64-bit integer: the value modulo 2^32, in the range of
`int`. -/
def wrapInt32 (i : Int) : Int :=
  (i + 2 ^ 31) % 2 ^ 32 - 2 ^ 31

/-- The sample state with the opacity of "MONITOR#A#1" a quiet NaN (`0x7FC00000`). -/
def nanState : State :=
  { monitorOptions := fun k =>
      if k = "MONITOR#A#1".data then some ⟨⟨2143289344⟩, 3400, false⟩
      else if k = "GONE#9".data then some ⟨⟨0⟩, 5000, true⟩
      else none,
    pollingEnabled := true,
    globalEnabled := false }

/-- The document `saveConfig` builds from `nanState` when the displays are
`sampleDisplays`: the opacity of "MONITOR#A#1" is the `double` NaN
`0x7FF8000000000000`. -/
def sampleNanSaved : Json :=
  .object [("general", .object [("globalEnabled", .boolean false),
                                ("pollingEnabled", .boolean true)]),
           ("monitors", .object
              [("DISPLAY2", .object [("enabled", .boolean true),
                                     ("opacity", .number_float ⟨0⟩),
                                     ("temperature", .number_integer (-1))]),
               ("MONITOR#A#1", .object [("enabled", .boolean false),
                                        ("opacity", .number_float ⟨9221120237041090560⟩),
                                        ("temperature", .number_integer 3400)])])]

/-- The text json.hpp writes for `sampleNanSaved`: JSON has no NaN, and `dump` writes
a number that is not finite as `null`:
`{"general":{"globalEnabled":false,"pollingEnabled":true},"monitors":{"DISPLAY2":{"enabled":true,"opacity":0.0,"temperature":-1},"MONITOR#A#1":{"enabled":false,"opacity":null,"temperature":3400}}}`. -/
def sampleNanText : String :=
  "\x7b\"general\":\x7b\"globalEnabled\":false,\"pollingEnabled\":true\x7d,\"monitors\":\x7b\"DISPLAY2\":\x7b\"enabled\":true,\"opacity\":0.0,\"temperature\":-1\x7d,\"MONITOR#A#1\":\x7b\"enabled\":false,\"opacity\":null,\"temperature\":3400\x7d\x7d\x7d"

/-- The document `sampleNanText` is read as: the opacity of "MONITOR#A#1" is null. -/
def sampleNanRead : Json :=
  .object [("general", .object [("globalEnabled", .boolean false),
                                ("pollingEnabled", .boolean true)]),
           ("monitors", .object
              [("DISPLAY2", .object [("enabled", .boolean true),
                                     ("opacity", .number_float ⟨0⟩),
                                     ("temperature", .number_integer (-1))]),
               ("MONITOR#A#1", .object [("enabled", .boolean false),
                                        ("opacity", .null),
                                        ("temperature", .number_integer 3400)])])]

/-- The value a document holds as opacity of the monitor entry `key`. -/
def savedOpacity (j : Json) (key : String) : Option Json :=
  match j.find "monitors" with
  | some m =>
    match m.find key with
    | some entry => entry.find "opacity"
    | none => none
  | none => none

/-- A platform whose numeric conversions are those of IEEE-754 and which treats a
number that is not finite as json.hpp does.  `float` to `double` is exact;
`value<float>` converts a floating number with `doubleToFloatBits` and throws on null
(as on a string, an array or an object), `value<int>` converts an integer number with
`wrapInt32`; neither sample has an integer where a float is expected, nor a float or
boolean where a number is expected, and those conversions are left out.  `dump` writes
`sampleNanText` for a document in which the opacity of "MONITOR#A#1" is not finite and
`sampleSavedText` otherwise; `parse` reads `sampleNanText` as `sampleNanRead` and
every other text as `samplePlatform` does. -/
def ieeePlatform : Platform :=
  { parse := fun text => objFind ((sampleNanText, sampleNanRead) :: sampleTexts) text,
    dump := fun j =>
      match savedOpacity j "MONITOR#A#1" with
      | some (.number_float d) => if d.nonFinite then sampleNanText else sampleSavedText
      | _ => sampleSavedText,
    getFloat := fun j =>
      match j with
      | .number_float d => some ⟨doubleToFloatBits d.bits⟩
      | _ => none,
    getInt := fun j =>
      match j with
      | .number_integer i => some (wrapInt32 i)
      | _ => none,
    toDouble := fun f => ⟨floatToDoubleBits f.bits⟩,
    dataDirectory := "C:\\dimmer".data }

/-! # Theorems -/

/-! ## queryMonitors -/

theorem foldl_MonitorEnumProc_getElem? (ds : List CoarseDisplay) :
    ∀ (acc : List Monitor) (i : Nat),
      (ds.foldl MonitorEnumProc acc)[i]? =
        if i < acc.length then acc[i]?
        else (ds[i - acc.length]?).map (fun d => Monitor.new d i) := by
  induction ds with
  | nil => intro acc i; by_cases h : i < acc.length <;> simp [h]; omega
  | cons d ds ih =>
    intro acc i
    rw [List.foldl_cons, ih]
    simp only [MonitorEnumProc, List.length_append, List.length_singleton]
    by_cases h1 : i < acc.length
    · have h2 : i < acc.length + 1 := by omega
      rw [if_pos h2, if_pos h1, List.getElem?_append_left h1]
    · by_cases h2 : i = acc.length
      · subst h2
        simp
      · have h3 : ¬ i < acc.length + 1 := by omega
        have h4 : i - acc.length = (i - (acc.length + 1)) + 1 := by omega
        simp [h1, h3, h4]

theorem EnumDisplayMonitors_getElem? (ds : List CoarseDisplay) (i : Nat) :
    (EnumDisplayMonitors ds)[i]? = (ds[i]?).map (fun d => Monitor.new d i) := by
  simp [EnumDisplayMonitors, foldl_MonitorEnumProc_getElem?]

theorem foldl_adapterStep (adapters : List Adapter) :
    ∀ result : List Monitor,
      adapters.foldl adapterStep result =
        result.map (fuseAll (adapters.filterMap (fun a => a.requery))) := by
  induction adapters with
  | nil =>
    intro result
    have h : fuseAll [] = id := rfl
    simp [h]
  | cons a rest ih =>
    intro result
    rw [List.foldl_cons, ih]
    cases h : a.requery with
    | none => simp [adapterStep, h, List.filterMap_cons]
    | some dd =>
      simp [adapterStep, h, List.filterMap_cons, fuse, fuseAll, List.map_map, Function.comp_def]

theorem queryMonitors_eq_map (os : Displays) :
    queryMonitors os = (EnumDisplayMonitors os.coarse).map (fuseAll (detailedEntries os)) := by
  simp [queryMonitors, detailedEntries, foldl_adapterStep]

theorem queryMonitors_getElem? (os : Displays) (i : Nat) :
    (queryMonitors os)[i]? =
      (os.coarse[i]?).map (fun d => fuseAll (detailedEntries os) (Monitor.new d i)) := by
  rw [queryMonitors_eq_map, List.getElem?_map, EnumDisplayMonitors_getElem?]
  cases os.coarse[i]? <;> rfl

theorem fuseOne_szDevice (dd : DISPLAY_DEVICE) (m : Monitor) :
    (fuseOne dd m).szDevice = m.szDevice := by
  unfold fuseOne; split <;> rfl

theorem fuseAll_szDevice (entries : List DISPLAY_DEVICE) :
    ∀ m : Monitor, (fuseAll entries m).szDevice = m.szDevice := by
  induction entries with
  | nil => intro m; rfl
  | cons dd rest ih =>
    intro m
    show (fuseAll rest (fuseOne dd m)).szDevice = m.szDevice
    rw [ih, fuseOne_szDevice]

theorem fuseAll_append_singleton (entries : List DISPLAY_DEVICE) (dd : DISPLAY_DEVICE)
    (m : Monitor) : fuseAll (entries ++ [dd]) m = fuseOne dd (fuseAll entries m) := by
  simp [fuseAll, List.foldl_append]

/-- The id after the fusion pass: the `DeviceID` of the last entry that matches, the
constructed id when none does. -/
theorem fuseAll_id (entries : List DISPLAY_DEVICE) (m : Monitor) :
    (fuseAll entries m).id =
      match (entries.filter (fun x => nameMatches m.szDevice x.DeviceName)).getLast? with
      | some e => e.DeviceID
      | none => m.id := by
  induction entries using List.reverseRecOn with
  | nil => rfl
  | append_singleton es dd ih =>
    rw [fuseAll_append_singleton, List.filter_append]
    unfold fuseOne
    rw [fuseAll_szDevice]
    by_cases h : nameMatches m.szDevice dd.DeviceName = true
    · simp [h, Monitor.setId, List.filter_cons]
    · simp [h, List.filter_cons, ih]

theorem fuseAll_unchanged (entries : List DISPLAY_DEVICE) (m : Monitor)
    (h : ∀ x ∈ entries, nameMatches m.szDevice x.DeviceName = false) :
    fuseAll entries m = m := by
  induction entries with
  | nil => rfl
  | cons dd rest ih =>
    show fuseAll rest (fuseOne dd m) = m
    have h1 : fuseOne dd m = m := by
      simp [fuseOne, h dd (List.mem_cons_self _ _)]
    rw [h1]
    exact ih (fun x hx => h x (List.mem_cons_of_mem _ hx))

theorem nameMatches_iff (szDevice DeviceName : WString) :
    nameMatches szDevice DeviceName = true ↔ truncate DeviceName szDevice = szDevice := by
  simp [nameMatches, eq_comm]

/-- C1. Fusion correctness of queryMonitors: when exactly one detailed entry has a
device name that, truncated to the length of the szDevice of the coarse display at
position i, equals that szDevice, the id of the descriptor at position i of the result
is that entry's DeviceID. -/
theorem C1_fusion_single_match (os : Displays) (i : Nat) (d : CoarseDisplay)
    (e : DISPLAY_DEVICE)
    (hd : os.coarse[i]? = some d)
    (hone : (detailedEntries os).filter
        (fun x => decide (truncate x.DeviceName d.szDevice = d.szDevice)) = [e]) :
    ((queryMonitors os)[i]?).map Monitor.getId = some e.DeviceID := by
  have hfilter : (detailedEntries os).filter
      (fun x => nameMatches (Monitor.new d i).szDevice x.DeviceName) = [e] := by
    rw [← hone]
    apply List.filter_congr
    intro x _
    simp [nameMatches, Monitor.new, eq_comm]
  rw [queryMonitors_getElem?, hd]
  simp only [Option.map_some', Monitor.getId]
  rw [fuseAll_id, hfilter]
  rfl

/-- Witness of C1: coarse name "DISPLAY1", detailed name "DISPLAY1\Monitor0". -/
theorem C1_fusion_single_match_witness :
    (sampleDisplays.coarse[0]? = some ⟨7, "DISPLAY1".data⟩ ∧
      (detailedEntries sampleDisplays).filter
        (fun x => decide (truncate x.DeviceName "DISPLAY1".data = "DISPLAY1".data))
        = [⟨"DISPLAY1\\Monitor0".data, "MONITOR#A#1".data⟩] ∧
      truncate "DISPLAY1\\Monitor0".data "DISPLAY1".data = "DISPLAY1".data) ∧
    ((queryMonitors sampleDisplays)[0]?).map Monitor.getId = some "MONITOR#A#1".data :=
  ⟨⟨by decide, by decide, by decide⟩,
   C1_fusion_single_match sampleDisplays 0 ⟨7, "DISPLAY1".data⟩
     ⟨"DISPLAY1\\Monitor0".data, "MONITOR#A#1".data⟩ (by decide) (by decide)⟩

/-- C2. Fusion non-match fallback of queryMonitors: when no detailed entry has a
truncated device name equal to the szDevice of the coarse display at position i (so
also when there is no adapter, or every re-query fails), the descriptor at position i
of the result is the one the coarse pass constructed, and its id is that szDevice. -/
theorem C2_fusion_no_match (os : Displays) (i : Nat) (d : CoarseDisplay)
    (hd : os.coarse[i]? = some d)
    (hnone : ∀ x ∈ detailedEntries os, truncate x.DeviceName d.szDevice ≠ d.szDevice) :
    (queryMonitors os)[i]? = some (Monitor.new d i) ∧
      ((queryMonitors os)[i]?).map Monitor.getId = some d.szDevice := by
  have h : fuseAll (detailedEntries os) (Monitor.new d i) = Monitor.new d i := by
    apply fuseAll_unchanged
    intro x hx
    have hx2 := hnone x hx
    simp only [nameMatches, Monitor.new, decide_eq_false_iff_not]
    exact fun h => hx2 h.symm
  rw [queryMonitors_getElem?, hd]
  simp only [Option.map_some', h]
  exact ⟨trivial, rfl⟩

/-- Witness of C2: coarse "DISPLAY2" with no matching detailed entry keeps the id
"DISPLAY2". -/
theorem C2_fusion_no_match_witness :
    (sampleDisplays.coarse[1]? = some ⟨9, "DISPLAY2".data⟩ ∧
      ∀ x ∈ detailedEntries sampleDisplays,
        truncate x.DeviceName "DISPLAY2".data ≠ "DISPLAY2".data) ∧
    ((queryMonitors sampleDisplays)[1]? = some (Monitor.new ⟨9, "DISPLAY2".data⟩ 1) ∧
      ((queryMonitors sampleDisplays)[1]?).map Monitor.getId = some "DISPLAY2".data) :=
  ⟨⟨by decide, by decide⟩,
   C2_fusion_no_match sampleDisplays 1 ⟨9, "DISPLAY2".data⟩ (by decide) (by decide)⟩

/-! ## parseConfig -/

theorem u8to16_injective {a b : String} (h : u8to16 a = u8to16 b) : a = b :=
  String.ext h

theorem u8to16_u16to8 (w : WString) : u8to16 (u16to8 w) = w := rfl

theorem u16to8_injective {a b : WString} (h : u16to8 a = u16to8 b) : a = b := by
  have h2 := congrArg u8to16 h
  simpa [u8to16_u16to8] using h2

theorem State.insert_monitorOptions (s : State) (id : WString) (o : MonitorOptions)
    (w : WString) :
    (s.insert id o).monitorOptions w = if w = id then some o else s.monitorOptions w := rfl

theorem parseMonitorsLoop_flags (P : Platform) (kvs : List (String × Json)) :
    ∀ s : State,
      (parseMonitorsLoop P kvs s).1.pollingEnabled = s.pollingEnabled ∧
        (parseMonitorsLoop P kvs s).1.globalEnabled = s.globalEnabled := by
  induction kvs with
  | nil => intro s; exact ⟨rfl, rfl⟩
  | cons e rest ih =>
    intro s
    obtain ⟨k, v⟩ := e
    simp only [parseMonitorsLoop]
    cases h : parseEntry P v with
    | none => exact ⟨rfl, rfl⟩
    | some o => exact ih (s.insert (u8to16 k) o)

/-- The loop touches no cache key other than the decoded keys of its entries. -/
theorem parseMonitorsLoop_other (P : Platform) (kvs : List (String × Json)) :
    ∀ (s : State) (w : WString), (∀ e ∈ kvs, u8to16 e.1 ≠ w) →
      (parseMonitorsLoop P kvs s).1.monitorOptions w = s.monitorOptions w := by
  induction kvs with
  | nil => intro s w _; rfl
  | cons e rest ih =>
    intro s w hw
    obtain ⟨k, v⟩ := e
    simp only [parseMonitorsLoop]
    cases h : parseEntry P v with
    | none => rfl
    | some o =>
      have hk : w ≠ u8to16 k := fun hh => hw (k, v) (List.mem_cons_self _ _) hh.symm
      show (parseMonitorsLoop P rest (s.insert (u8to16 k) o)).1.monitorOptions w = _
      rw [ih (s.insert (u8to16 k) o) w (fun e he => hw e (List.mem_cons_of_mem _ he)),
        State.insert_monitorOptions, if_neg hk]

theorem parseMonitorsLoop_completes (P : Platform) (kvs : List (String × Json))
    (hok : ∀ e ∈ kvs, parseEntry P e.2 ≠ none) :
    ∀ s : State, (parseMonitorsLoop P kvs s).2 = false := by
  induction kvs with
  | nil => intro s; rfl
  | cons e rest ih =>
    intro s
    obtain ⟨k, v⟩ := e
    simp only [parseMonitorsLoop]
    cases h : parseEntry P v with
    | none => exact absurd h (hok (k, v) (List.mem_cons_self _ _))
    | some o => exact ih (fun e he => hok e (List.mem_cons_of_mem _ he)) _

/-- With distinct keys and no malformed entry, every entry ends up in the cache under
its decoded key. -/
theorem parseMonitorsLoop_entry (P : Platform) (kvs : List (String × Json))
    (hok : ∀ e ∈ kvs, parseEntry P e.2 ≠ none) (hnodup : (kvs.map Prod.fst).Nodup) :
    ∀ (s : State), ∀ e ∈ kvs,
      (parseMonitorsLoop P kvs s).1.monitorOptions (u8to16 e.1) = parseEntry P e.2 := by
  induction kvs with
  | nil => intro s e he; cases he
  | cons e0 rest ih =>
    intro s e he
    obtain ⟨k, v⟩ := e0
    rw [List.map_cons, List.nodup_cons] at hnodup
    simp only [parseMonitorsLoop]
    cases h : parseEntry P v with
    | none => exact absurd h (hok (k, v) (List.mem_cons_self _ _))
    | some o =>
      show (parseMonitorsLoop P rest (s.insert (u8to16 k) o)).1.monitorOptions (u8to16 e.1) = _
      rcases List.mem_cons.mp he with heq | hin
      · subst heq
        rw [parseMonitorsLoop_other, State.insert_monitorOptions, if_pos rfl, h]
        intro e' he' hkey
        exact hnodup.1 (List.mem_map.mpr ⟨e', he', u8to16_injective hkey⟩)
      · exact ih (fun e he => hok e (List.mem_cons_of_mem _ he)) hnodup.2 _ e hin

/-- The loop stops at the first malformed entry, with the entries before it applied. -/
theorem parseMonitorsLoop_stops (P : Platform) (pre : List (String × Json)) (k : String)
    (v : Json) (post : List (String × Json))
    (hpre : ∀ e ∈ pre, parseEntry P e.2 ≠ none) (hbad : parseEntry P v = none) :
    ∀ s : State,
      parseMonitorsLoop P (pre ++ (k, v) :: post) s = ((parseMonitorsLoop P pre s).1, true) := by
  induction pre with
  | nil => intro s; simp [parseMonitorsLoop, hbad]
  | cons e rest ih =>
    intro s
    obtain ⟨k0, v0⟩ := e
    simp only [List.cons_append, parseMonitorsLoop]
    cases h : parseEntry P v0 with
    | none => exact absurd h (hpre (k0, v0) (List.mem_cons_self _ _))
    | some o => exact ih (fun e he => hpre e (List.mem_cons_of_mem _ he)) _

theorem parseMonitors_flags (P : Platform) (m : Json) (s : State) :
    (parseMonitors P m s).1.pollingEnabled = s.pollingEnabled ∧
      (parseMonitors P m s).1.globalEnabled = s.globalEnabled := by
  unfold parseMonitors
  split
  · exact parseMonitorsLoop_flags P _ s
  all_goals exact ⟨rfl, rfl⟩

theorem fieldOk_getBool {kvs : List (String × Json)} {key : String}
    (h : fieldOk Json.getBool kvs key = true) (dflt : Bool) :
    (Json.object kvs).value Json.getBool key dflt = some (flagOr (.object kvs) key dflt) := by
  unfold fieldOk at h
  simp only [Json.value, flagOr, Json.find]
  cases hf : objFind kvs key with
  | none => rfl
  | some v =>
    rw [hf] at h
    cases v <;> simp_all [Json.getBool]

/-- On a well-formed "general" section both flags are assigned: the document's value
where the key is present, the default where it is not. -/
theorem parseGeneral_wellFormed (g : Json) (s : State) (h : generalWellFormed g = true) :
    parseGeneral g s =
      ({ s with pollingEnabled := flagOr g "pollingEnabled" false,
                globalEnabled := flagOr g "globalEnabled" true }, false) := by
  cases g with
  | object kvs =>
    simp only [generalWellFormed, Bool.and_eq_true] at h
    simp only [parseGeneral, fieldOk_getBool h.1, fieldOk_getBool h.2]
  | _ => simp [generalWellFormed] at h

theorem value_isSome_iff {T : Type} (get : Json → Option T) (kvs : List (String × Json))
    (key : String) (dflt : T) :
    (Json.object kvs).value get key dflt ≠ none ↔ fieldOk get kvs key = true := by
  simp only [Json.value, fieldOk]
  cases objFind kvs key with
  | none => simp
  | some v => cases hg : get v <;> simp [hg]

theorem value_of_fieldOk {T : Type} (get : Json → Option T) (kvs : List (String × Json))
    (key : String) (dflt : T) (h : fieldOk get kvs key = true) :
    ∃ x, (Json.object kvs).value get key dflt = some x ∧
      (match objFind kvs key with
        | none => x = dflt
        | some v => get v = some x) := by
  simp only [Json.value, fieldOk] at *
  cases hf : objFind kvs key with
  | none => exact ⟨dflt, rfl, rfl⟩
  | some v =>
    rw [hf] at h
    cases hg : get v with
    | none => simp [hg] at h
    | some x => exact ⟨x, hg, hg⟩

theorem getBool_eq_some {v : Json} {b : Bool} (h : Json.getBool v = some b) :
    v = Json.boolean b := by
  cases v <;> simp_all [Json.getBool]

/-- A well-formed entry is read without an exception, and the options read hold the
document's values where present and the defaults where absent. -/
theorem parseEntry_wellFormed (P : Platform) (v : Json) (h : entryWellFormed P v = true) :
    ∃ fields o, v = .object fields ∧ parseEntry P v = some o ∧ entryAgrees P fields o := by
  cases v with
  | object kvs =>
    simp only [entryWellFormed, Bool.and_eq_true] at h
    obtain ⟨⟨h1, h2⟩, h3⟩ := h
    obtain ⟨x1, hx1, a1⟩ := value_of_fieldOk P.getFloat kvs "opacity" DEFAULT_OPACITY h1
    obtain ⟨x2, hx2, a2⟩ := value_of_fieldOk P.getInt kvs "temperature" DEFAULT_TEMPERATURE h2
    obtain ⟨x3, hx3, a3⟩ := value_of_fieldOk Json.getBool kvs "enabled" true h3
    refine ⟨kvs, ⟨x1, x2, x3⟩, rfl, ?_, a1, a2, ?_⟩
    · simp only [parseEntry, hx1, hx2, hx3]
    · cases hf : objFind kvs "enabled" with
      | none => rw [hf] at a3; exact a3
      | some x => rw [hf] at a3; exact getBool_eq_some a3
  | _ => simp [entryWellFormed] at h

/-- An entry is read without an exception exactly when it is well formed. -/
theorem parseEntry_ne_none_iff (P : Platform) (v : Json) :
    parseEntry P v ≠ none ↔ entryWellFormed P v = true := by
  constructor
  · intro h
    cases v with
    | object kvs =>
      simp only [entryWellFormed, Bool.and_eq_true]
      rw [← value_isSome_iff P.getFloat kvs "opacity" DEFAULT_OPACITY,
        ← value_isSome_iff P.getInt kvs "temperature" DEFAULT_TEMPERATURE,
        ← value_isSome_iff Json.getBool kvs "enabled" true]
      unfold parseEntry at h
      refine ⟨⟨?_, ?_⟩, ?_⟩
      · intro h1; rw [h1] at h; exact h rfl
      · intro h2
        cases h1 : (Json.object kvs).value P.getFloat "opacity" DEFAULT_OPACITY with
        | none => rw [h1] at h; exact h rfl
        | some x1 => rw [h1, h2] at h; exact h rfl
      · intro h3
        cases h1 : (Json.object kvs).value P.getFloat "opacity" DEFAULT_OPACITY with
        | none => rw [h1] at h; exact h rfl
        | some x1 =>
          cases h2 : (Json.object kvs).value P.getInt "temperature" DEFAULT_TEMPERATURE with
          | none => rw [h1, h2] at h; exact h rfl
          | some x2 => rw [h1, h2, h3] at h; exact h rfl
    | _ => exact absurd rfl h
  · intro h
    obtain ⟨_, o, _, ho, _⟩ := parseEntry_wellFormed P v h
    rw [ho]; simp

theorem parseEntry_eq_none_iff (P : Platform) (v : Json) :
    parseEntry P v = none ↔ entryWellFormed P v = false := by
  have h := parseEntry_ne_none_iff P v
  constructor
  · intro h1
    cases hw : entryWellFormed P v with
    | false => rfl
    | true => exact absurd h1 (h.mpr hw)
  · intro h1
    by_contra h2
    rw [h.mp h2] at h1
    cases h1

/-- The `try` block once the text has been read as the document `j`. -/
theorem parseConfigTry_of_parse (P : Platform) (config : String) (s : State) (j : Json)
    (hparse : P.parse config = some j) :
    parseConfigTry P config s =
      if (parseMonitorsSection P j s).2 = true then parseMonitorsSection P j s
      else parseGeneralSection j (parseMonitorsSection P j s).1 := by
  simp only [parseConfigTry, hparse]

theorem parseMonitorsSection_flags (P : Platform) (j : Json) (s : State) :
    (parseMonitorsSection P j s).1.pollingEnabled = s.pollingEnabled ∧
      (parseMonitorsSection P j s).1.globalEnabled = s.globalEnabled := by
  unfold parseMonitorsSection
  cases j.find "monitors" with
  | none => exact ⟨rfl, rfl⟩
  | some m => exact parseMonitors_flags P m s

theorem parseGeneral_monitorOptions (g : Json) (s : State) :
    (parseGeneral g s).1.monitorOptions = s.monitorOptions := by
  unfold parseGeneral
  split
  · rfl
  · split <;> rfl

theorem parseGeneralSection_monitorOptions (j : Json) (s : State) :
    (parseGeneralSection j s).1.monitorOptions = s.monitorOptions := by
  unfold parseGeneralSection
  cases j.find "general" with
  | none => rfl
  | some g => exact parseGeneral_monitorOptions g s

/-- The cache after `parseConfig` is the cache after the "monitors" section. -/
theorem parseConfig_monitorOptions (P : Platform) (config : String) (s : State) (j : Json)
    (hparse : P.parse config = some j) :
    (parseConfig P config s).monitorOptions = (parseMonitorsSection P j s).1.monitorOptions := by
  rw [parseConfig, parseConfigTry_of_parse P config s j hparse]
  split
  · rfl
  · exact parseGeneralSection_monitorOptions j _

theorem monitorsWellFormed_completes (P : Platform) (m : Json) (s : State)
    (h : monitorsWellFormed P m = true) : (parseMonitors P m s).2 = false := by
  cases m with
  | object kvs =>
    simp only [monitorsWellFormed, List.all_eq_true] at h
    exact parseMonitorsLoop_completes P kvs
      (fun e he => (parseEntry_ne_none_iff P e.2).mpr (h e he)) s
  | _ => simp [monitorsWellFormed] at h

theorem wellFormed_sections (P : Platform) (j : Json) (h : wellFormed P j = true) :
    (∀ m, j.find "monitors" = some m → monitorsWellFormed P m = true) ∧
      (∀ g, j.find "general" = some g → generalWellFormed g = true) := by
  cases j with
  | object kvs =>
    simp only [wellFormed, Bool.and_eq_true] at h
    constructor
    · intro m hm
      simp only [Json.find] at hm
      have h1 := h.1
      rw [hm] at h1
      exact h1
    · intro g hg
      simp only [Json.find] at hg
      have h2 := h.2
      rw [hg] at h2
      exact h2
  | _ => simp [wellFormed] at h

theorem parseMonitorsSection_completes (P : Platform) (j : Json) (s : State)
    (h : ∀ m, j.find "monitors" = some m → monitorsWellFormed P m = true) :
    (parseMonitorsSection P j s).2 = false := by
  unfold parseMonitorsSection
  cases hm : j.find "monitors" with
  | none => rfl
  | some m => exact monitorsWellFormed_completes P m s (h m hm)

theorem State.ext_fields {a b : State} (h1 : a.monitorOptions = b.monitorOptions)
    (h2 : a.pollingEnabled = b.pollingEnabled) (h3 : a.globalEnabled = b.globalEnabled) :
    a = b := by
  cases a; cases b; simp_all

/-- What the "monitors" section leaves in the cache when all its entries are well
formed and its keys are distinct. -/
theorem parseConfig_monitors_applied (P : Platform) (config : String) (s : State) (j : Json)
    (hparse : P.parse config = some j) (kvs : List (String × Json))
    (hm : j.find "monitors" = some (.object kvs))
    (hwf : ∀ e ∈ kvs, entryWellFormed P e.2 = true)
    (hnodup : (kvs.map Prod.fst).Nodup) :
    (∀ e ∈ kvs, ∃ fields o, e.2 = .object fields ∧ entryAgrees P fields o ∧
        (parseConfig P config s).monitorOptions (u8to16 e.1) = some o) ∧
    (∀ w, (∀ e ∈ kvs, u8to16 e.1 ≠ w) →
        (parseConfig P config s).monitorOptions w = s.monitorOptions w) := by
  rw [parseConfig_monitorOptions P config s j hparse]
  simp only [parseMonitorsSection, hm, parseMonitors]
  have hok : ∀ e ∈ kvs, parseEntry P e.2 ≠ none :=
    fun e he => (parseEntry_ne_none_iff P e.2).mpr (hwf e he)
  constructor
  · intro e he
    obtain ⟨fields, o, hv, ho, hag⟩ := parseEntry_wellFormed P e.2 (hwf e he)
    refine ⟨fields, o, hv, hag, ?_⟩
    rw [parseMonitorsLoop_entry P kvs hok hnodup s e he, ho]
  · intro w hw
    exact parseMonitorsLoop_other P kvs s w hw

/-- C7. Parse robustness: a text that is not valid JSON, and a document that has
neither a "monitors" nor a "general" key, both leave the cache and the two flags as
they were, whatever they were. -/
theorem C7_parse_robustness (P : Platform) (config : String) (s : State) :
    (P.parse config = none → parseConfig P config s = s) ∧
    (∀ j, P.parse config = some j → j.find "monitors" = none → j.find "general" = none →
        parseConfig P config s = s) := by
  constructor
  · intro h
    simp [parseConfig, parseConfigTry, h]
  · intro j hj hm hg
    simp [parseConfig, parseConfigTry, parseMonitorsSection, parseGeneralSection, hj, hm, hg]

/-- Witness of C7: the texts "not json" and "{}" on a state whose flags are not the
defaults. -/
theorem C7_parse_robustness_witness :
    (samplePlatform.parse "not json" = none ∧
      samplePlatform.parse "\x7b\x7d" = some (Json.object []) ∧
      (Json.object []).find "monitors" = none ∧ (Json.object []).find "general" = none ∧
      sampleState.pollingEnabled = true ∧ sampleState.globalEnabled = false) ∧
    parseConfig samplePlatform "not json" sampleState = sampleState ∧
    parseConfig samplePlatform "\x7b\x7d" sampleState = sampleState :=
  ⟨⟨rfl, rfl, rfl, rfl, rfl, rfl⟩,
   (C7_parse_robustness samplePlatform "not json" sampleState).1 rfl,
   (C7_parse_robustness samplePlatform "\x7b\x7d" sampleState).2 (Json.object []) rfl rfl rfl⟩

/-- Counterexample to C8 as stated: the well-formed document "{}" has no "general"
key, and after parseConfig pollingEnabled is still true and globalEnabled still false,
not the defaults false and true. -/
theorem C8_counterexample :
    samplePlatform.parse "\x7b\x7d" = some (Json.object []) ∧
    wellFormed samplePlatform (Json.object []) = true ∧
    (Json.object []).find "general" = none ∧
    (parseConfig samplePlatform "\x7b\x7d" sampleState).pollingEnabled ≠ false ∧
    (parseConfig samplePlatform "\x7b\x7d" sampleState).globalEnabled ≠ true :=
  ⟨rfl, by decide, rfl, by decide, by decide⟩

/-- C8 (amended). Global flags in parseConfig of a well-formed document: when the
document has a "general" section, pollingEnabled becomes its pollingEnabled if present
and false otherwise, and globalEnabled its globalEnabled if present and true
otherwise; when the document has no "general" section both flags keep the values they
had before the call. -/
theorem C8_global_flags (P : Platform) (config : String) (s : State) (j : Json)
    (hparse : P.parse config = some j) (hwf : wellFormed P j = true) :
    (∀ g, j.find "general" = some g →
        (parseConfig P config s).pollingEnabled = flagOr g "pollingEnabled" false ∧
        (parseConfig P config s).globalEnabled = flagOr g "globalEnabled" true) ∧
    (j.find "general" = none →
        (parseConfig P config s).pollingEnabled = s.pollingEnabled ∧
        (parseConfig P config s).globalEnabled = s.globalEnabled) := by
  obtain ⟨hmw, hgw⟩ := wellFormed_sections P j hwf
  have hc := parseMonitorsSection_completes P j s hmw
  have hflags := parseMonitorsSection_flags P j s
  have hrun : parseConfig P config s = (parseGeneralSection j (parseMonitorsSection P j s).1).1 := by
    rw [parseConfig, parseConfigTry_of_parse P config s j hparse, hc]
    rfl
  rw [hrun]
  constructor
  · intro g hg
    simp only [parseGeneralSection, hg, parseGeneral_wellFormed g _ (hgw g hg)]
    exact ⟨trivial, trivial⟩
  · intro hg
    simp only [parseGeneralSection, hg]
    exact hflags

/-- Witness of C8 (amended): a document whose "general" section has pollingEnabled
only, read into a state whose flags are not the defaults. -/
theorem C8_global_flags_witness :
    (samplePlatform.parse sampleDocText = some sampleDoc ∧
      wellFormed samplePlatform sampleDoc = true ∧
      sampleDoc.find "general" = some (.object [("pollingEnabled", .boolean true)]) ∧
      sampleState.globalEnabled = false) ∧
    (parseConfig samplePlatform sampleDocText sampleState).pollingEnabled = true ∧
    (parseConfig samplePlatform sampleDocText sampleState).globalEnabled = true :=
  ⟨⟨rfl, by decide, rfl, rfl⟩,
   (C8_global_flags samplePlatform sampleDocText sampleState sampleDoc rfl (by decide)).1
     (.object [("pollingEnabled", .boolean true)]) rfl⟩

theorem parseGeneral_malformed (g : Json) (s : State) :
    generalWellFormed g = false →
    (parseGeneral g s).1.globalEnabled = s.globalEnabled ∧
    (parseGeneral g s).1.pollingEnabled =
      (match g with
        | .object gk =>
          if fieldOk Json.getBool gk "pollingEnabled" = true
          then flagOr g "pollingEnabled" false else s.pollingEnabled
        | _ => s.pollingEnabled) := by
  intro h
  cases g with
  | object gk =>
    by_cases h1 : fieldOk Json.getBool gk "pollingEnabled" = true
    · have h2 : fieldOk Json.getBool gk "globalEnabled" = false := by
        simpa [generalWellFormed, h1] using h
      have h3 : (Json.object gk).value Json.getBool "globalEnabled" true = none := by
        by_contra hne
        rw [(value_isSome_iff Json.getBool gk "globalEnabled" true).mp hne] at h2
        cases h2
      simp only [parseGeneral, fieldOk_getBool h1, h3, h1, if_true]
      exact ⟨trivial, trivial⟩
    · have h3 : (Json.object gk).value Json.getBool "pollingEnabled" false = none := by
        by_contra hne
        exact h1 ((value_isSome_iff Json.getBool gk "pollingEnabled" false).mp hne)
      simp only [parseGeneral, h3, h1]
      exact ⟨trivial, rfl⟩
  | _ => exact ⟨rfl, rfl⟩

/-- Counterexample to C6 as stated: the document
`{"general":5,"monitors":{"A":{"temperature":3000}}}` has a "general" section of the
wrong JSON type, the `try` block is left by an exception, and yet the cache has gained
the entry of monitor "A": the call is not a no-op. -/
theorem C6_counterexample :
    samplePlatform.parse sampleBadGeneralText = some sampleBadGeneral ∧
    sampleBadGeneral.find "general" = some (Json.number_integer 5) ∧
    generalWellFormed (Json.number_integer 5) = false ∧
    (parseConfigTry samplePlatform sampleBadGeneralText State.init).2 = true ∧
    State.init.monitorOptions "A".data = none ∧
    (parseConfig samplePlatform sampleBadGeneralText State.init).monitorOptions "A".data
      = some ⟨DEFAULT_OPACITY, 3000, true⟩ ∧
    parseConfig samplePlatform sampleBadGeneralText State.init ≠ State.init := by
  refine ⟨rfl, rfl, rfl, by decide, rfl, by decide, ?_⟩
  intro h
  have h2 := congrArg (fun s => s.monitorOptions "A".data) h
  revert h2
  decide

/-- C6 (amended). parseConfig on malformed input returns normally, in the state
reached when the malformed part was met.  (a) Text that is not valid JSON: nothing
changes.  (b) A "monitors" value that is neither an object, null nor an empty array:
nothing changes.  (c) A malformed entry in the "monitors" object: the entries before
it in iteration order are in the cache, no other cache key and neither flag has
changed.  (d) A malformed "general" section after a well-formed "monitors" section:
the cache is the one the "monitors" section produces, globalEnabled is unchanged, and
pollingEnabled is assigned exactly when the section is an object whose pollingEnabled
is absent or a boolean.  (e) A "monitors" value that is null or an empty array raises
nothing: the cache is unchanged and a well-formed "general" section is applied. -/
theorem C6_parseConfig_malformed (P : Platform) (config : String) (s : State) :
    (P.parse config = none → parseConfig P config s = s) ∧
    (∀ j m, P.parse config = some j → j.find "monitors" = some m →
        (∀ kvs, m ≠ .object kvs) → m ≠ .null → m ≠ .array [] →
        parseConfig P config s = s) ∧
    (∀ j pre k v post, P.parse config = some j →
        j.find "monitors" = some (.object (pre ++ (k, v) :: post)) →
        (∀ e ∈ pre, entryWellFormed P e.2 = true) → entryWellFormed P v = false →
        (pre.map Prod.fst).Nodup →
        (parseConfig P config s).pollingEnabled = s.pollingEnabled ∧
        (parseConfig P config s).globalEnabled = s.globalEnabled ∧
        (∀ e ∈ pre, ∃ fields o, e.2 = .object fields ∧ entryAgrees P fields o ∧
            (parseConfig P config s).monitorOptions (u8to16 e.1) = some o) ∧
        (∀ w, (∀ e ∈ pre, u8to16 e.1 ≠ w) →
            (parseConfig P config s).monitorOptions w = s.monitorOptions w)) ∧
    (∀ j g, P.parse config = some j →
        (∀ m, j.find "monitors" = some m → monitorsWellFormed P m = true) →
        j.find "general" = some g → generalWellFormed g = false →
        (parseConfig P config s).monitorOptions
          = (parseMonitorsSection P j s).1.monitorOptions ∧
        (parseConfig P config s).globalEnabled = s.globalEnabled ∧
        (parseConfig P config s).pollingEnabled =
          (match g with
            | .object gk =>
              if fieldOk Json.getBool gk "pollingEnabled" = true
              then flagOr g "pollingEnabled" false else s.pollingEnabled
            | _ => s.pollingEnabled)) ∧
    (∀ j m g, P.parse config = some j → j.find "monitors" = some m →
        m = .null ∨ m = .array [] →
        j.find "general" = some g → generalWellFormed g = true →
        (parseConfig P config s).monitorOptions = s.monitorOptions ∧
        (parseConfig P config s).pollingEnabled = flagOr g "pollingEnabled" false ∧
        (parseConfig P config s).globalEnabled = flagOr g "globalEnabled" true) := by
  refine ⟨?_, ?_, ?_, ?_, ?_⟩
  · intro h
    simp [parseConfig, parseConfigTry, h]
  · intro j m hj hm hobj hnull harr
    have hthrow : parseMonitors P m s = (s, true) := by
      cases m with
      | object kvs => exact absurd rfl (hobj kvs)
      | null => exact absurd rfl hnull
      | array xs =>
        cases xs with
        | nil => exact absurd rfl harr
        | cons x rest => rfl
      | _ => rfl
    simp [parseConfig, parseConfigTry, parseMonitorsSection, hj, hm, hthrow]
  · intro j pre k v post hj hm hpre hbad hnodup
    have hok : ∀ e ∈ pre, parseEntry P e.2 ≠ none :=
      fun e he => (parseEntry_ne_none_iff P e.2).mpr (hpre e he)
    have hstop := parseMonitorsLoop_stops P pre k v post hok
      ((parseEntry_eq_none_iff P v).mpr hbad) s
    have hrun : parseConfig P config s = (parseMonitorsLoop P pre s).1 := by
      simp [parseConfig, parseConfigTry, parseMonitorsSection, hj, hm, parseMonitors, hstop]
    rw [hrun]
    refine ⟨(parseMonitorsLoop_flags P pre s).1, (parseMonitorsLoop_flags P pre s).2, ?_, ?_⟩
    · intro e he
      obtain ⟨fields, o, hv, ho, hag⟩ := parseEntry_wellFormed P e.2 (hpre e he)
      refine ⟨fields, o, hv, hag, ?_⟩
      rw [parseMonitorsLoop_entry P pre hok hnodup s e he, ho]
    · intro w hw
      exact parseMonitorsLoop_other P pre s w hw
  · intro j g hj hmw hg hbad
    have hc := parseMonitorsSection_completes P j s hmw
    have hflags := parseMonitorsSection_flags P j s
    have hrun : parseConfig P config s =
        (parseGeneral g (parseMonitorsSection P j s).1).1 := by
      rw [parseConfig, parseConfigTry_of_parse P config s j hj, hc]
      simp [parseGeneralSection, hg]
    rw [hrun]
    have hgen := parseGeneral_malformed g (parseMonitorsSection P j s).1 hbad
    refine ⟨parseGeneral_monitorOptions g _, ?_, ?_⟩
    · rw [hgen.1, hflags.2]
    · rw [hgen.2, hflags.1]
  · intro j m g hj hm hskip hg hgw
    have hmon : parseMonitorsSection P j s = (s, false) := by
      simp only [parseMonitorsSection, hm]
      rcases hskip with h | h <;> subst h <;> rfl
    have hrun : parseConfig P config s = (parseGeneral g s).1 := by
      rw [parseConfig, parseConfigTry_of_parse P config s j hj, hmon]
      simp [parseGeneralSection, hg]
    rw [hrun, parseGeneral_wellFormed g s hgw]
    exact ⟨rfl, rfl, rfl⟩

/-- Witness of C6 (amended): a document whose second monitor entry is a string (the
first entry is applied, the third is not, the flags keep their values), and a document
whose globalEnabled is a number (pollingEnabled is assigned, globalEnabled is not). -/
theorem C6_parseConfig_malformed_witness :
    (samplePlatform.parse sampleBadEntryText = some sampleBadEntry ∧
      samplePlatform.parse sampleBadFlagText = some sampleBadFlag ∧
      entryWellFormed samplePlatform (Json.string "x") = false ∧
      State.init.pollingEnabled = false) ∧
    ((parseConfig samplePlatform sampleBadEntryText State.init).pollingEnabled = false ∧
      (parseConfig samplePlatform sampleBadEntryText State.init).monitorOptions "A".data
        = some ⟨DEFAULT_OPACITY, DEFAULT_TEMPERATURE, false⟩ ∧
      (parseConfig samplePlatform sampleBadEntryText State.init).monitorOptions "C".data
        = none) ∧
    ((parseConfig samplePlatform sampleBadFlagText State.init).globalEnabled = true ∧
      (parseConfig samplePlatform sampleBadFlagText State.init).pollingEnabled = true) := by
  have hc := (C6_parseConfig_malformed samplePlatform sampleBadEntryText State.init).2.2.1
    sampleBadEntry [("A", .object [("enabled", .boolean false)])] "B" (.string "x")
    [("C", .object [])] rfl rfl (by decide) rfl (by decide)
  have hd := (C6_parseConfig_malformed samplePlatform sampleBadFlagText State.init).2.2.2.1
    sampleBadFlag
    (.object [("globalEnabled", .number_integer 5), ("pollingEnabled", .boolean true)])
    rfl (by intro m hm; cases hm; decide) rfl rfl
  refine ⟨⟨rfl, rfl, rfl, rfl⟩, ⟨hc.1, by decide, ?_⟩, ⟨hd.2.1, hd.2.2⟩⟩
  exact hc.2.2.2 "C".data (by decide)

/-- C9. Per-monitor parsing in parseConfig of a well-formed document: every key of the
"monitors" section maps, once decoded, to options whose three fields are the document's
values where present and 0.0, -1, true where absent, whatever the cache held for that
key before; every other cache key keeps its entry.  The keys of the section are
distinct, as the keys of a `std::map` are. -/
theorem C9_per_monitor_parsing (P : Platform) (config : String) (s : State) (j : Json)
    (hparse : P.parse config = some j) (hwf : wellFormed P j = true) :
    (∀ kvs, j.find "monitors" = some (.object kvs) → (kvs.map Prod.fst).Nodup →
        (∀ e ∈ kvs, ∃ fields o, e.2 = .object fields ∧ entryAgrees P fields o ∧
            (parseConfig P config s).monitorOptions (u8to16 e.1) = some o) ∧
        (∀ w, (∀ e ∈ kvs, u8to16 e.1 ≠ w) →
            (parseConfig P config s).monitorOptions w = s.monitorOptions w)) ∧
    (j.find "monitors" = none →
        (parseConfig P config s).monitorOptions = s.monitorOptions) ∧
    (∀ m, j.find "monitors" = some m → ∃ kvs, m = .object kvs) := by
  obtain ⟨hmw, _⟩ := wellFormed_sections P j hwf
  refine ⟨?_, ?_, ?_⟩
  · intro kvs hm hnodup
    have hall := hmw _ hm
    simp only [monitorsWellFormed, List.all_eq_true] at hall
    exact parseConfig_monitors_applied P config s j hparse kvs hm hall hnodup
  · intro hm
    rw [parseConfig_monitorOptions P config s j hparse]
    simp [parseMonitorsSection, hm]
  · intro m hm
    have hall := hmw m hm
    cases m with
    | object kvs => exact ⟨kvs, rfl⟩
    | _ => simp [monitorsWellFormed] at hall

/-- Witness of C9: the sample document read into a cache that already holds an entry
for "MONITOR#A#1" with other values: temperature comes from the document, opacity and
enabled are reset to their defaults, and the key "Z" is added. -/
theorem C9_per_monitor_parsing_witness :
    (samplePlatform.parse sampleDocText = some sampleDoc ∧
      wellFormed samplePlatform sampleDoc = true ∧
      sampleState.monitorOptions "MONITOR#A#1".data = some ⟨⟨1056964608⟩, 3400, false⟩) ∧
    (∃ fields o,
      Json.object [("temperature", Json.number_integer 3000)] = Json.object fields ∧
      entryAgrees samplePlatform fields o ∧
      (parseConfig samplePlatform sampleDocText sampleState).monitorOptions
        (u8to16 "MONITOR#A#1") = some o) ∧
    (parseConfig samplePlatform sampleDocText sampleState).monitorOptions "MONITOR#A#1".data
      = some ⟨DEFAULT_OPACITY, 3000, true⟩ :=
  ⟨⟨rfl, by decide, by decide⟩,
   ((C9_per_monitor_parsing samplePlatform sampleDocText sampleState sampleDoc rfl
      (by decide)).1
      [("MONITOR#A#1", .object [("temperature", .number_integer 3000)]),
       ("Z", .object [("enabled", .boolean false)])] rfl (by decide)).1
      ("MONITOR#A#1", .object [("temperature", .number_integer 3000)])
      (List.mem_cons_self _ _),
   by decide⟩

/-! ## options -/

/-- C10. Default-fill idempotence of options: for an id not in the cache, options
returns opacity 0.0, temperature -1, enabled true and inserts that entry; for an id in
the cache it returns the stored entry and leaves the state as it is; a second call for
the same id (through any monitor object with that id) returns the entry of the first
call and changes nothing, and after a write through the first result the second call
returns what was written. -/
theorem C10_options_idempotent (s : State) (monitor : Monitor) :
    (s.monitorOptions monitor.getId = none →
        (options s monitor).1 = ⟨⟨0⟩, -1, true⟩ ∧
        (options s monitor).2 = s.insert monitor.getId ⟨⟨0⟩, -1, true⟩ ∧
        (options s monitor).2.monitorOptions monitor.getId = some ⟨⟨0⟩, -1, true⟩) ∧
    (∀ o, s.monitorOptions monitor.getId = some o → options s monitor = (o, s)) ∧
    (∀ monitor2 : Monitor, monitor2.getId = monitor.getId →
        options (options s monitor).2 monitor2 = options s monitor) ∧
    (∀ (o : MonitorOptions) (monitor2 : Monitor), monitor2.getId = monitor.getId →
        options ((options s monitor).2.insert monitor.getId o) monitor2
          = (o, (options s monitor).2.insert monitor.getId o)) := by
  refine ⟨?_, ?_, ?_, ?_⟩
  · intro h
    have ho : options s monitor =
        (MonitorOptions.new, s.insert monitor.getId MonitorOptions.new) := by
      simp only [options, h]
    rw [ho]
    refine ⟨rfl, rfl, ?_⟩
    rw [State.insert_monitorOptions, if_pos rfl]
    rfl
  · intro o h
    simp only [options, h]
  · intro monitor2 h2
    cases h : s.monitorOptions monitor.getId with
    | none => simp [options, h, h2, State.insert_monitorOptions, MonitorOptions.new]
    | some o => simp [options, h, h2]
  · intro o monitor2 h2
    simp [options, h2, State.insert_monitorOptions]

/-- Witness of C10: a fresh id on the initial state, and the id stored in the sample
state. -/
theorem C10_options_idempotent_witness :
    (State.init.monitorOptions (Monitor.new ⟨7, "DISPLAY1".data⟩ 0).getId = none ∧
      sampleState.monitorOptions (Monitor.mk 7 0 "DISPLAY1".data "MONITOR#A#1".data).getId
        = some ⟨⟨1056964608⟩, 3400, false⟩) ∧
    (options State.init (Monitor.new ⟨7, "DISPLAY1".data⟩ 0)).1 = ⟨⟨0⟩, -1, true⟩ ∧
    options sampleState (Monitor.mk 7 0 "DISPLAY1".data "MONITOR#A#1".data)
      = (⟨⟨1056964608⟩, 3400, false⟩, sampleState) :=
  ⟨⟨rfl, by decide⟩,
   ((C10_options_idempotent State.init (Monitor.new ⟨7, "DISPLAY1".data⟩ 0)).1 rfl).1,
   (C10_options_idempotent sampleState
      (Monitor.mk 7 0 "DISPLAY1".data "MONITOR#A#1".data)).2.1 _ (by decide)⟩

/-! ## json objects -/

theorem char_toNat_injective {a b : Char} (h : a.toNat = b.toNat) : a = b := by
  apply Char.eq_of_val_eq
  cases ha : a.val with
  | mk x =>
    cases hb : b.val with
    | mk y =>
      simp only [Char.toNat, UInt32.toNat, ha, hb] at h
      congr
      exact BitVec.eq_of_toNat_eq h

theorem keyLt_irrefl (a : List Char) : keyLt a a = false := by
  induction a with
  | nil => rfl
  | cons x rest ih => simp [keyLt, ih]

theorem keyLt_trans : ∀ (a b c : List Char),
    keyLt a b = true → keyLt b c = true → keyLt a c = true := by
  intro a
  induction a with
  | nil =>
    intro b c h1 h2
    cases b with
    | nil => simp [keyLt] at h1
    | cons y bs =>
      cases c with
      | nil => simp [keyLt] at h2
      | cons z cs => rfl
  | cons x as ih =>
    intro b c h1 h2
    cases b with
    | nil => simp [keyLt] at h1
    | cons y bs =>
      cases c with
      | nil => simp [keyLt] at h2
      | cons z cs =>
        simp only [keyLt] at h1 h2 ⊢
        by_cases hxy : x.toNat < y.toNat
        · by_cases hyz : y.toNat < z.toNat
          · have hxz : x.toNat < z.toNat := by omega
            simp [hxz]
          · by_cases hzy : z.toNat < y.toNat
            · simp [hyz, hzy] at h2
            · have hxz : x.toNat < z.toNat := by omega
              simp [hxz]
        · by_cases hyx : y.toNat < x.toNat
          · simp [hxy, hyx] at h1
          · simp only [hxy, hyx, if_false] at h1
            by_cases hyz : y.toNat < z.toNat
            · have hxz : x.toNat < z.toNat := by omega
              simp [hxz]
            · by_cases hzy : z.toNat < y.toNat
              · simp [hyz, hzy] at h2
              · simp only [hyz, hzy, if_false] at h2
                have hxz : ¬ x.toNat < z.toNat := by omega
                have hzx : ¬ z.toNat < x.toNat := by omega
                simp only [hxz, hzx, if_false]
                exact ih bs cs h1 h2

theorem keyLt_total : ∀ (a b : List Char), keyLt a b = false → a ≠ b → keyLt b a = true := by
  intro a
  induction a with
  | nil =>
    intro b h hne
    cases b with
    | nil => exact absurd rfl hne
    | cons y bs => simp [keyLt] at h
  | cons x as ih =>
    intro b h hne
    cases b with
    | nil => rfl
    | cons y bs =>
      simp only [keyLt] at h ⊢
      by_cases hxy : x.toNat < y.toNat
      · simp [hxy] at h
      · by_cases hyx : y.toNat < x.toNat
        · simp [hyx]
        · simp only [hxy, hyx, if_false] at h ⊢
          have hx : x = y := char_toNat_injective (by omega)
          subst hx
          exact ih bs h (fun hh => hne (by rw [hh]))

theorem objFind_objInsert (kvs : List (String × Json)) (key : String) (v : Json)
    (key2 : String) :
    objFind (objInsert kvs key v) key2 = if key = key2 then some v else objFind kvs key2 := by
  induction kvs with
  | nil => simp [objInsert, objFind]
  | cons e rest ih =>
    obtain ⟨k, x⟩ := e
    simp only [objInsert]
    by_cases h1 : k = key
    · subst h1
      simp only [if_true, objFind]
      by_cases h3 : k = key2 <;> simp [h3]
    · simp only [h1, if_false]
      by_cases h2 : keyLt key.data k.data = true
      · simp only [h2, if_true, objFind]
      · simp only [h2, objFind, ih]
        by_cases h3 : k = key2
        · have h4 : ¬ key = key2 := fun hh => h1 (h3.trans hh.symm)
          simp [h3, h4]
        · simp [h3]

theorem mem_keys_objInsert (kvs : List (String × Json)) (key : String) (v : Json) :
    ∀ e : String × Json, e ∈ objInsert kvs key v → e = (key, v) ∨ e ∈ kvs := by
  induction kvs with
  | nil =>
    intro e hmem
    simp only [objInsert, List.mem_singleton] at hmem
    exact Or.inl hmem
  | cons e0 rest ih =>
    obtain ⟨k, x⟩ := e0
    intro e hmem
    simp only [objInsert] at hmem
    by_cases h1 : k = key
    · rw [if_pos h1] at hmem
      rcases List.mem_cons.mp hmem with h | h
      · exact Or.inl h
      · exact Or.inr (List.mem_cons_of_mem _ h)
    · rw [if_neg h1] at hmem
      by_cases h2 : keyLt key.data k.data = true
      · rw [if_pos h2] at hmem
        rcases List.mem_cons.mp hmem with h | h
        · exact Or.inl h
        · exact Or.inr h
      · rw [if_neg h2] at hmem
        rcases List.mem_cons.mp hmem with h | h
        · exact Or.inr (h ▸ List.mem_cons_self _ _)
        · rcases ih e h with h3 | h3
          · exact Or.inl h3
          · exact Or.inr (List.mem_cons_of_mem _ h3)

/-- Assignment through `operator[]` keeps the keys strictly increasing. -/
theorem keysSorted_objInsert (kvs : List (String × Json)) (key : String) (v : Json)
    (h : keysSorted kvs) : keysSorted (objInsert kvs key v) := by
  induction kvs with
  | nil => simp [objInsert, keysSorted]
  | cons e0 rest ih =>
    obtain ⟨k, x⟩ := e0
    unfold keysSorted at h ih ⊢
    rw [List.pairwise_cons] at h
    simp only [objInsert]
    by_cases h1 : k = key
    · subst h1
      simp only [if_true]
      exact List.pairwise_cons.mpr ⟨h.1, h.2⟩
    · simp only [h1, if_false]
      by_cases h2 : keyLt key.data k.data = true
      · simp only [h2, if_true]
        refine List.pairwise_cons.mpr ⟨?_, List.pairwise_cons.mpr ⟨h.1, h.2⟩⟩
        intro e he
        rcases List.mem_cons.mp he with he | he
        · rw [he]; exact h2
        · exact keyLt_trans _ _ _ h2 (h.1 e he)
      · simp only [h2]
        refine List.pairwise_cons.mpr ⟨?_, ih h.2⟩
        intro e he
        rcases mem_keys_objInsert rest key v e he with he | he
        · rw [he]
          have h3 : keyLt key.data k.data = false := by simpa using h2
          exact keyLt_total _ _ h3 (fun hh => h1 (String.ext hh).symm)
        · exact h.1 e he

theorem keysSorted_nodup (kvs : List (String × Json)) (h : keysSorted kvs) :
    (kvs.map Prod.fst).Nodup := by
  unfold keysSorted at h
  rw [List.Nodup, List.pairwise_map]
  refine h.imp ?_
  intro a b hab heq
  rw [heq, keyLt_irrefl] at hab
  cases hab

theorem objFind_eq_none_iff (kvs : List (String × Json)) (key : String) :
    objFind kvs key = none ↔ key ∉ kvs.map Prod.fst := by
  induction kvs with
  | nil => simp [objFind]
  | cons e rest ih =>
    obtain ⟨k, x⟩ := e
    simp only [objFind, List.map_cons, List.mem_cons]
    by_cases h : k = key
    · simp [h]
    · have h2 : ¬ key = k := fun hh => h hh.symm
      simp [h, h2, ih]

theorem objFind_of_mem (kvs : List (String × Json)) (hnodup : (kvs.map Prod.fst).Nodup)
    (e : String × Json) (he : e ∈ kvs) : objFind kvs e.1 = some e.2 := by
  induction kvs with
  | nil => cases he
  | cons e0 rest ih =>
    obtain ⟨k, x⟩ := e0
    rw [List.map_cons, List.nodup_cons] at hnodup
    rcases List.mem_cons.mp he with heq | hin
    · subst heq
      simp [objFind]
    · have hk : ¬ k = e.1 := by
        intro hh
        exact hnodup.1 (hh ▸ List.mem_map.mpr ⟨e, hin, rfl⟩)
      simp only [objFind, hk, if_false]
      exact ih hnodup.2 hin

theorem mem_of_objFind (kvs : List (String × Json)) (key : String) (v : Json)
    (h : objFind kvs key = some v) : (key, v) ∈ kvs := by
  induction kvs with
  | nil => simp [objFind] at h
  | cons e0 rest ih =>
    obtain ⟨k, x⟩ := e0
    simp only [objFind] at h
    by_cases hk : k = key
    · simp only [hk, if_true, Option.some.injEq] at h
      rw [hk, h]
      exact List.mem_cons_self _ _
    · simp only [hk, if_false] at h
      exact List.mem_cons_of_mem _ (ih h)

/-! ## saveConfig -/

theorem options_of_none (s : State) (mon : Monitor)
    (h : s.monitorOptions mon.getId = none) :
    options s mon = (MonitorOptions.new, s.insert mon.getId MonitorOptions.new) := by
  simp only [options, h]

theorem options_of_some (s : State) (mon : Monitor) (o : MonitorOptions)
    (h : s.monitorOptions mon.getId = some o) : options s mon = (o, s) := by
  simp only [options, h]

theorem options_fst (s : State) (mon : Monitor) :
    (options s mon).1 = (s.monitorOptions mon.getId).getD MonitorOptions.new := by
  cases h : s.monitorOptions mon.getId with
  | none => rw [options_of_none s mon h]; rfl
  | some o => rw [options_of_some s mon o h]; rfl

theorem options_snd_monitorOptions (s : State) (mon : Monitor) (w : WString) :
    (options s mon).2.monitorOptions w =
      if w = mon.getId then some ((s.monitorOptions w).getD MonitorOptions.new)
      else s.monitorOptions w := by
  cases h : s.monitorOptions mon.getId with
  | none =>
    rw [options_of_none s mon h]
    simp only [State.insert_monitorOptions]
    by_cases hw : w = mon.getId
    · simp [hw, h]
    · simp [hw]
  | some o =>
    rw [options_of_some s mon o h]
    by_cases hw : w = mon.getId
    · simp [hw, h]
    · simp [hw]

theorem options_snd_flags (s : State) (mon : Monitor) :
    (options s mon).2.pollingEnabled = s.pollingEnabled ∧
      (options s mon).2.globalEnabled = s.globalEnabled := by
  cases h : s.monitorOptions mon.getId with
  | none => rw [options_of_none s mon h]; exact ⟨rfl, rfl⟩
  | some o => rw [options_of_some s mon o h]; exact ⟨rfl, rfl⟩

/-- A second `options` call for the same id returns the entry of the first and changes
nothing. -/
theorem options_options (s : State) (mon mon2 : Monitor) (h2 : mon2.getId = mon.getId) :
    options (options s mon).2 mon2 = options s mon := by
  cases h : s.monitorOptions mon.getId with
  | none =>
    rw [options_of_none s mon h]
    apply options_of_some
    rw [h2, State.insert_monitorOptions, if_pos rfl]
  | some o =>
    rw [options_of_some s mon o h]
    apply options_of_some
    rw [h2, h]

theorem saveMonitor_eq (P : Platform) (acc : Json × State) (mon : Monitor) :
    saveMonitor P acc mon =
      (acc.1.set (u16to8 mon.getId) (entryFor P acc.2 mon.getId), (options acc.2 mon).2) := by
  simp only [saveMonitor, getMonitorOpacity, getMonitorTemperature, isMonitorEnabled,
    options_options _ mon mon rfl, entryFor, options_fst]

theorem entryFor_options (P : Platform) (s : State) (mon : Monitor) (w : WString) :
    entryFor P (options s mon).2 w = entryFor P s w := by
  have h : ((options s mon).2.monitorOptions w).getD MonitorOptions.new
      = (s.monitorOptions w).getD MonitorOptions.new := by
    rw [options_snd_monitorOptions]
    by_cases hw : w = mon.getId <;> simp [hw]
  simp only [entryFor, h]

/-- The statics after the loop of `saveConfig`: the flags are untouched, and the cache
has gained a default entry for every enumerated id it did not hold. -/
theorem saveFold_state (P : Platform) (mons : List Monitor) :
    ∀ (m : Json) (st : State),
      (mons.foldl (saveMonitor P) (m, st)).2.pollingEnabled = st.pollingEnabled ∧
      (mons.foldl (saveMonitor P) (m, st)).2.globalEnabled = st.globalEnabled ∧
      ∀ w, (mons.foldl (saveMonitor P) (m, st)).2.monitorOptions w =
        if w ∈ mons.map Monitor.getId
        then some ((st.monitorOptions w).getD MonitorOptions.new)
        else st.monitorOptions w := by
  induction mons with
  | nil => intro m st; simp
  | cons mon rest ih =>
    intro m st
    rw [List.foldl_cons, saveMonitor_eq]
    obtain ⟨h1, h2, h3⟩ := ih (m.set (u16to8 mon.getId) (entryFor P st mon.getId))
      (options st mon).2
    refine ⟨h1.trans (options_snd_flags st mon).1, h2.trans (options_snd_flags st mon).2, ?_⟩
    intro w
    rw [h3 w, options_snd_monitorOptions]
    by_cases hw : w = mon.getId
    · simp [hw]
    · simp [hw]

theorem Json.set_eq_object (m : Json) (key : String) (v : Json)
    (hm : m = .null ∨ ∃ kvs, m = .object kvs) :
    m.set key v = .object (objInsert m.entries key v) := by
  rcases hm with h | ⟨kvs, h⟩ <;> subst h <;> rfl

/-- The "monitors" value after the loop of `saveConfig`: still null or an object with
increasing keys, whose entry for a key is the one written for an enumerated id with
that key, and the earlier entry for any other key. -/
theorem saveFold_doc (P : Platform) (mons : List Monitor) :
    ∀ (m : Json) (st : State), (m = .null ∨ ∃ kvs, m = .object kvs) → keysSorted m.entries →
      ((mons.foldl (saveMonitor P) (m, st)).1 = .null ∨
        ∃ kvs, (mons.foldl (saveMonitor P) (m, st)).1 = .object kvs) ∧
      keysSorted (mons.foldl (saveMonitor P) (m, st)).1.entries ∧
      ∀ key, objFind (mons.foldl (saveMonitor P) (m, st)).1.entries key =
        if key ∈ mons.map (fun mon => u16to8 mon.getId)
        then some (entryFor P st (u8to16 key))
        else objFind m.entries key := by
  induction mons with
  | nil => intro m st hm hs; simp [hm, hs]
  | cons mon rest ih =>
    intro m st hm hs
    rw [List.foldl_cons, saveMonitor_eq, Json.set_eq_object m _ _ hm]
    obtain ⟨h1, h2, h3⟩ := ih (.object (objInsert m.entries (u16to8 mon.getId)
        (entryFor P st mon.getId))) (options st mon).2 (Or.inr ⟨_, rfl⟩)
      (keysSorted_objInsert _ _ _ hs)
    refine ⟨h1, h2, ?_⟩
    intro key
    rw [h3 key, entryFor_options]
    simp only [Json.entries, objFind_objInsert, List.map_cons, List.mem_cons]
    by_cases hk : key ∈ rest.map (fun mon => u16to8 mon.getId)
    · rw [if_pos hk, if_pos (Or.inr hk)]
    · by_cases hk2 : u16to8 mon.getId = key
      · rw [if_neg hk, if_pos hk2, if_pos (Or.inl hk2.symm), ← hk2, u8to16_u16to8]
      · have hk3 : ¬ (key = u16to8 mon.getId ∨ key ∈ rest.map (fun mon => u16to8 mon.getId)) := by
          rintro (hh | hh)
          · exact hk2 hh.symm
          · exact hk hh
        rw [if_neg hk, if_neg hk2, if_neg hk3]

theorem saveConfigJson_eq (P : Platform) (os : Displays) (s : State) :
    saveConfigJson P os s =
      (.object [("general", generalJson s),
                ("monitors", ((queryMonitors os).foldl (saveMonitor P) (Json.null, s)).1)],
       ((queryMonitors os).foldl (saveMonitor P) (Json.null, s)).2) := by
  obtain ⟨h1, h2, _⟩ := saveFold_state P (queryMonitors os) Json.null s
  have hg : generalJson ((queryMonitors os).foldl (saveMonitor P) (Json.null, s)).2
      = generalJson s := by
    simp only [generalJson, h1, h2]
  simp only [saveConfigJson, hg]
  rfl

theorem Json.find_eq_objFind (m : Json) (key : String) :
    m.find key = objFind m.entries key := by
  cases m <;> rfl

theorem Json.keys_eq (m : Json) : m.keys = m.entries.map Prod.fst := by
  cases m <;> rfl

/-- C4. Document written by saveConfig: the text handed to the file gateway is the dump
of a document whose "general" section holds the current globalEnabled and
pollingEnabled and whose "monitors" section has as keys exactly the (UTF-8) fused ids
of the monitors queryMonitors returns, each once, each with the opacity, temperature
and enabled the cache holds for that id; an id that is not enumerated is not a key,
whether or not the cache has an entry for it. -/
theorem C4_saved_document (P : Platform) (os : Displays) (s : State) (d : Disk) :
    (saveConfig P os s d).2.writes
      = d.writes ++ [(getConfigFilename P, P.dump (saveConfigJson P os s).1)] ∧
    (saveConfig P os s d).1 = (saveConfigJson P os s).2 ∧
    ∃ m, (saveConfigJson P os s).1 =
        .object [("general", .object [("globalEnabled", .boolean s.globalEnabled),
                                      ("pollingEnabled", .boolean s.pollingEnabled)]),
                 ("monitors", m)] ∧
      (∀ key, key ∈ m.keys ↔ ∃ mon ∈ queryMonitors os, u16to8 mon.getId = key) ∧
      m.keys.Nodup ∧
      (∀ mon ∈ queryMonitors os, ∃ o,
          (saveConfig P os s d).1.monitorOptions mon.getId = some o ∧
          m.find (u16to8 mon.getId) = some (entryJson P o.opacity o.temperature o.enabled) ∧
          (∀ o0, s.monitorOptions mon.getId = some o0 → o = o0)) ∧
      (∀ id, (∀ mon ∈ queryMonitors os, mon.getId ≠ id) → u16to8 id ∉ m.keys) := by
  refine ⟨rfl, rfl, ((queryMonitors os).foldl (saveMonitor P) (Json.null, s)).1, ?_⟩
  obtain ⟨_, hsorted, hfind⟩ := saveFold_doc P (queryMonitors os) Json.null s (Or.inl rfl)
    List.Pairwise.nil
  obtain ⟨_, _, hstate⟩ := saveFold_state P (queryMonitors os) Json.null s
  have hkeys : ∀ key, key ∈ ((queryMonitors os).foldl (saveMonitor P) (Json.null, s)).1.keys ↔
      ∃ mon ∈ queryMonitors os, u16to8 mon.getId = key := by
    intro key
    rw [Json.keys_eq]
    constructor
    · intro hk
      by_contra hne
      have hnot : key ∉ (queryMonitors os).map (fun mon => u16to8 mon.getId) := by
        intro hmem
        obtain ⟨mon, hmon, hk2⟩ := List.mem_map.mp hmem
        exact hne ⟨mon, hmon, hk2⟩
      have h := hfind key
      rw [if_neg hnot] at h
      have h2 : objFind (Json.null).entries key = none := rfl
      rw [h2] at h
      exact (objFind_eq_none_iff _ key).mp h hk
    · rintro ⟨mon, hmon, hk⟩
      by_contra hnot
      have h := hfind key
      rw [if_pos (List.mem_map.mpr ⟨mon, hmon, hk⟩), (objFind_eq_none_iff _ key).mpr hnot] at h
      cases h
  refine ⟨?_, hkeys, ?_, ?_, ?_⟩
  · rw [saveConfigJson_eq]
    rfl
  · rw [Json.keys_eq]
    exact keysSorted_nodup _ hsorted
  · intro mon hmon
    refine ⟨(s.monitorOptions mon.getId).getD MonitorOptions.new, ?_, ?_, ?_⟩
    · show (saveConfigJson P os s).2.monitorOptions mon.getId = _
      rw [saveConfigJson_eq]
      simp only []
      rw [hstate mon.getId, if_pos (List.mem_map.mpr ⟨mon, hmon, rfl⟩)]
    · rw [Json.find_eq_objFind, hfind (u16to8 mon.getId),
        if_pos (List.mem_map.mpr ⟨mon, hmon, rfl⟩)]
      rfl
    · intro o0 h0
      rw [h0]
      rfl
  · intro id hid hk
    obtain ⟨mon, hmon, heq⟩ := (hkeys (u16to8 id)).mp hk
    exact hid mon hmon (u16to8_injective heq)

/-- Witness of C4: the sample state holds an entry for "GONE#9", which is not
enumerated; the document built is `sampleSaved`, and "GONE#9" is not among the keys of
its "monitors" section. -/
theorem C4_saved_document_witness :
    (sampleState.monitorOptions "GONE#9".data = some ⟨⟨0⟩, 5000, true⟩ ∧
      (∀ mon ∈ queryMonitors sampleDisplays, mon.getId ≠ "GONE#9".data) ∧
      (saveConfigJson samplePlatform sampleDisplays sampleState).1 = sampleSaved) ∧
    ∃ m, (saveConfigJson samplePlatform sampleDisplays sampleState).1.find "monitors" = some m ∧
      u16to8 "GONE#9".data ∉ m.keys := by
  obtain ⟨_, _, m, hdoc, _, _, _, hprune⟩ :=
    C4_saved_document samplePlatform sampleDisplays sampleState ⟨fun _ => none, []⟩
  have hlive : ∀ mon ∈ queryMonitors sampleDisplays, mon.getId ≠ "GONE#9".data := by decide
  refine ⟨⟨by decide, hlive, rfl⟩, m, ?_, hprune "GONE#9".data hlive⟩
  rw [hdoc]
  rfl

/-- C5. New-monitor defaulting at save: for a live monitor B whose id has no cache entry
when saveConfig runs, the written document holds under B's id the entry with opacity
0.0, temperature -1 and enabled true, the cache afterwards holds the default entry for
B's id, and every entry the cache held before is still there with the same values. -/
theorem C5_new_monitor_defaulting (P : Platform) (os : Displays) (s : State) (d : Disk)
    (B : Monitor) (hB : B ∈ queryMonitors os) (hnew : s.monitorOptions B.getId = none) :
    (saveConfig P os s d).2.writes
      = d.writes ++ [(getConfigFilename P, P.dump (saveConfigJson P os s).1)] ∧
    (∃ m, (saveConfigJson P os s).1.find "monitors" = some m ∧
      m.find (u16to8 B.getId) =
        some (.object [("enabled", .boolean true),
                       ("opacity", .number_float (P.toDouble ⟨0⟩)),
                       ("temperature", .number_integer (-1))])) ∧
    (saveConfig P os s d).1.monitorOptions B.getId = some ⟨⟨0⟩, -1, true⟩ ∧
    (∀ id o, s.monitorOptions id = some o →
        (saveConfig P os s d).1.monitorOptions id = some o) := by
  obtain ⟨_, _, hfind⟩ := saveFold_doc P (queryMonitors os) Json.null s (Or.inl rfl)
    List.Pairwise.nil
  obtain ⟨_, _, hstate⟩ := saveFold_state P (queryMonitors os) Json.null s
  have hsave : ∀ w, (saveConfig P os s d).1.monitorOptions w =
      if w ∈ (queryMonitors os).map Monitor.getId
      then some ((s.monitorOptions w).getD MonitorOptions.new)
      else s.monitorOptions w := by
    intro w
    show (saveConfigJson P os s).2.monitorOptions w = _
    rw [saveConfigJson_eq]
    exact hstate w
  refine ⟨rfl, ⟨((queryMonitors os).foldl (saveMonitor P) (Json.null, s)).1, ?_, ?_⟩, ?_, ?_⟩
  · rw [saveConfigJson_eq]
    rfl
  · rw [Json.find_eq_objFind, hfind (u16to8 B.getId),
      if_pos (List.mem_map.mpr ⟨B, hB, rfl⟩), u8to16_u16to8]
    simp only [entryFor, hnew]
    rfl
  · rw [hsave, if_pos (List.mem_map.mpr ⟨B, hB, rfl⟩), hnew]
    rfl
  · intro id o ho
    rw [hsave, ho]
    by_cases hmem : id ∈ (queryMonitors os).map Monitor.getId
    · rw [if_pos hmem]; rfl
    · rw [if_neg hmem]

set_option maxRecDepth 8000 in
/-- Witness of C5: the display "DISPLAY2" of the sample displays has no entry in the
sample state. -/
theorem C5_new_monitor_defaulting_witness :
    (Monitor.new ⟨9, "DISPLAY2".data⟩ 1 ∈ queryMonitors sampleDisplays ∧
      sampleState.monitorOptions (Monitor.new ⟨9, "DISPLAY2".data⟩ 1).getId = none) ∧
    (saveConfig samplePlatform sampleDisplays sampleState ⟨fun _ => none, []⟩).1.monitorOptions
        "DISPLAY2".data = some ⟨⟨0⟩, -1, true⟩ ∧
    (saveConfig samplePlatform sampleDisplays sampleState ⟨fun _ => none, []⟩).1.monitorOptions
        "GONE#9".data = some ⟨⟨0⟩, 5000, true⟩ :=
  ⟨⟨by decide, by decide⟩,
   (C5_new_monitor_defaulting samplePlatform sampleDisplays sampleState ⟨fun _ => none, []⟩
      (Monitor.new ⟨9, "DISPLAY2".data⟩ 1) (by decide) (by decide)).2.2.1,
   (C5_new_monitor_defaulting samplePlatform sampleDisplays sampleState ⟨fun _ => none, []⟩
      (Monitor.new ⟨9, "DISPLAY2".data⟩ 1) (by decide) (by decide)).2.2.2
      "GONE#9".data ⟨⟨0⟩, 5000, true⟩ (by decide)⟩

theorem parseEntry_entryJson (P : Platform) (a : CFloat) (t : Int) (e : Bool)
    (hf : P.getFloat (.number_float (P.toDouble a)) = some a)
    (hi : P.getInt (.number_integer t) = some t) :
    parseEntry P (entryJson P a t e) = some ⟨a, t, e⟩ := by
  have h1 : (entryJson P a t e).value P.getFloat "opacity" DEFAULT_OPACITY = some a := by
    simp [entryJson, Json.value, objFind, hf]
  have h2 : (entryJson P a t e).value P.getInt "temperature" DEFAULT_TEMPERATURE = some t := by
    simp [entryJson, Json.value, objFind, hi]
  have h3 : (entryJson P a t e).value Json.getBool "enabled" true = some e := by
    simp [entryJson, Json.value, objFind, Json.getBool]
  simp only [parseEntry, h1, h2, h3]

theorem parseGeneral_generalJson (s st : State) :
    parseGeneral (generalJson s) st =
      ({ st with pollingEnabled := s.pollingEnabled, globalEnabled := s.globalEnabled },
        false) := by
  simp [parseGeneral, generalJson, Json.value, objFind, Json.getBool]

set_option maxRecDepth 8000 in
/-- Counterexample to C3 as stated: a state in which the opacity of the enumerated
monitor "MONITOR#A#1" is a NaN.  saveConfig builds a document holding that NaN, the text
written has `null` in its place, and loadConfig in a fresh process reads that text
without letting an exception out; the `try` block of parseConfig is left at the entry
of "MONITOR#A#1", after the entry of "DISPLAY2" and before the "general" section.  The
cache then holds no entry for "MONITOR#A#1", where at save time it held temperature
3400 and enabled false, and pollingEnabled and globalEnabled are the defaults false and
true, not the saved true and false. -/
theorem C3_counterexample :
    (Monitor.mk 7 0 "DISPLAY1".data "MONITOR#A#1".data ∈ queryMonitors sampleDisplays ∧
      nanState.monitorOptions "MONITOR#A#1".data = some ⟨⟨2143289344⟩, 3400, false⟩ ∧
      (ieeePlatform.toDouble ⟨2143289344⟩).nonFinite = true ∧
      nanState.pollingEnabled = true ∧ nanState.globalEnabled = false) ∧
    ((saveConfigJson ieeePlatform sampleDisplays nanState).1 = sampleNanSaved ∧
      (saveConfig ieeePlatform sampleDisplays nanState sampleDisk).2.writes
        = [(getConfigFilename ieeePlatform, sampleNanText)] ∧
      (saveConfig ieeePlatform sampleDisplays nanState sampleDisk).1.monitorOptions
        "MONITOR#A#1".data = some ⟨⟨2143289344⟩, 3400, false⟩ ∧
      ieeePlatform.parse sampleNanText = some sampleNanRead ∧
      savedOpacity sampleNanRead "MONITOR#A#1" = some Json.null ∧
      ieeePlatform.getFloat Json.null = none) ∧
    ((loadConfig ieeePlatform
        (saveConfig ieeePlatform sampleDisplays nanState sampleDisk).2 State.init).2 = false ∧
      (parseConfigTry ieeePlatform sampleNanText State.init).2 = true ∧
      (loadConfig ieeePlatform
        (saveConfig ieeePlatform sampleDisplays nanState sampleDisk).2
        State.init).1.monitorOptions "DISPLAY2".data = some ⟨⟨0⟩, -1, true⟩ ∧
      (loadConfig ieeePlatform
        (saveConfig ieeePlatform sampleDisplays nanState sampleDisk).2
        State.init).1.monitorOptions "MONITOR#A#1".data = none ∧
      (loadConfig ieeePlatform
        (saveConfig ieeePlatform sampleDisplays nanState sampleDisk).2
        State.init).1.pollingEnabled ≠ nanState.pollingEnabled ∧
      (loadConfig ieeePlatform
        (saveConfig ieeePlatform sampleDisplays nanState sampleDisk).2
        State.init).1.globalEnabled ≠ nanState.globalEnabled) :=
  ⟨⟨by decide, by decide, by decide, rfl, rfl⟩,
   ⟨rfl, by decide, by decide, rfl, rfl, rfl⟩,
   ⟨by decide, by decide, by decide, by decide, by decide, by decide⟩⟩

/-- C3 (amended). Save/load round trip: let saveConfig write the document D, and let
loadConfig then read the file just written, starting from any statics (those left by
the save, or those of a fresh process).  Provided the json library reads the text of D
back as D and converts the written opacity and temperature of every enumerated monitor
back to the value written (as it does for finite opacities), the load succeeds, and for
every monitor enumerated at save time the cache holds under the same id (the id
survives the UTF-16 to UTF-8 to UTF-16 conversion) the opacity, temperature and enabled
it held at save time; globalEnabled and pollingEnabled are those of save time. -/
theorem C3_save_load_round_trip (P : Platform) (os : Displays) (s : State) (d : Disk)
    (s0 : State)
    (hparse : P.parse (P.dump (saveConfigJson P os s).1) = some (saveConfigJson P os s).1)
    (hnum : ∀ mon ∈ queryMonitors os, ∀ o,
        (saveConfig P os s d).1.monitorOptions mon.getId = some o →
        P.getFloat (.number_float (P.toDouble o.opacity)) = some o.opacity ∧
        P.getInt (.number_integer o.temperature) = some o.temperature) :
    (loadConfig P (saveConfig P os s d).2 s0).2 = false ∧
    (∀ mon ∈ queryMonitors os,
        (∃ o, (saveConfig P os s d).1.monitorOptions mon.getId = some o) ∧
        (loadConfig P (saveConfig P os s d).2 s0).1.monitorOptions mon.getId
          = (saveConfig P os s d).1.monitorOptions mon.getId ∧
        (∀ o, s.monitorOptions mon.getId = some o →
          (loadConfig P (saveConfig P os s d).2 s0).1.monitorOptions mon.getId = some o) ∧
        u8to16 (u16to8 mon.getId) = mon.getId) ∧
    (loadConfig P (saveConfig P os s d).2 s0).1.pollingEnabled = s.pollingEnabled ∧
    (loadConfig P (saveConfig P os s d).2 s0).1.globalEnabled = s.globalEnabled := by
  obtain ⟨hshape, hsorted, hfind⟩ := saveFold_doc P (queryMonitors os) Json.null s (Or.inl rfl)
    List.Pairwise.nil
  obtain ⟨_, _, hstate⟩ := saveFold_state P (queryMonitors os) Json.null s
  -- the statics after the save
  have hsave : ∀ mon ∈ queryMonitors os, (saveConfig P os s d).1.monitorOptions mon.getId =
      some ((s.monitorOptions mon.getId).getD MonitorOptions.new) := by
    intro mon hmon
    show (saveConfigJson P os s).2.monitorOptions mon.getId = _
    rw [saveConfigJson_eq]
    simp only []
    rw [hstate mon.getId, if_pos (List.mem_map.mpr ⟨mon, hmon, rfl⟩)]
  -- the load reads the text just written
  have hload : loadConfig P (saveConfig P os s d).2 s0 =
      (parseConfig P (P.dump (saveConfigJson P os s).1) s0, false) := by
    simp [loadConfig, fileToString, saveConfig, stringToFile]
  rw [hload]
  -- the two sections of the document
  have hdoc := saveConfigJson_eq P os s
  have hm : (saveConfigJson P os s).1.find "monitors" =
      some ((queryMonitors os).foldl (saveMonitor P) (Json.null, s)).1 := by
    rw [hdoc]; rfl
  have hg : (saveConfigJson P os s).1.find "general" = some (generalJson s) := by
    rw [hdoc]; rfl
  -- every entry of the "monitors" section is read back
  have hentry : ∀ mon ∈ queryMonitors os,
      parseEntry P (entryFor P s mon.getId) =
        some ((s.monitorOptions mon.getId).getD MonitorOptions.new) := by
    intro mon hmon
    obtain ⟨hf, hi⟩ := hnum mon hmon _ (hsave mon hmon)
    exact parseEntry_entryJson P _ _ _ hf hi
  have hall : ∀ e ∈ ((queryMonitors os).foldl (saveMonitor P) (Json.null, s)).1.entries,
      parseEntry P e.2 ≠ none := by
    intro e he
    have h1 := objFind_of_mem _ (keysSorted_nodup _ hsorted) e he
    rw [hfind e.1] at h1
    by_cases hk : e.1 ∈ (queryMonitors os).map (fun mon => u16to8 mon.getId)
    · rw [if_pos hk] at h1
      obtain ⟨mon, hmon, hkey⟩ := List.mem_map.mp hk
      have h2 : e.2 = entryFor P s mon.getId := by
        have h3 := Option.some.inj h1
        rw [← h3, ← hkey, u8to16_u16to8]
      rw [h2, hentry mon hmon]
      simp
    · rw [if_neg hk] at h1
      cases h1
  have hcomplete : (parseMonitorsSection P (saveConfigJson P os s).1 s0).2 = false := by
    simp only [parseMonitorsSection, hm]
    rcases hshape with h | ⟨kvs, h⟩
    · rw [h]; rfl
    · rw [h] at hall ⊢
      exact parseMonitorsLoop_completes P kvs hall s0
  have hrun : parseConfig P (P.dump (saveConfigJson P os s).1) s0 =
      (parseGeneral (generalJson s) (parseMonitorsSection P (saveConfigJson P os s).1 s0).1).1 := by
    rw [parseConfig, parseConfigTry_of_parse P _ s0 _ hparse, hcomplete]
    simp [parseGeneralSection, hg]
  refine ⟨rfl, ?_, ?_, ?_⟩
  · intro mon hmon
    have hloaded : (parseConfig P (P.dump (saveConfigJson P os s).1) s0).monitorOptions
        mon.getId = some ((s.monitorOptions mon.getId).getD MonitorOptions.new) := by
      rw [parseConfig_monitorOptions P _ s0 _ hparse]
      simp only [parseMonitorsSection, hm]
      have hf := hfind (u16to8 mon.getId)
      rw [if_pos (List.mem_map.mpr ⟨mon, hmon, rfl⟩), u8to16_u16to8] at hf
      rcases hshape with h | ⟨kvs, h⟩
      · rw [h] at hf
        cases hf
      · rw [h] at hf hall hsorted ⊢
        have hmem := mem_of_objFind kvs _ _ hf
        have := parseMonitorsLoop_entry P kvs hall (keysSorted_nodup _ hsorted) s0 _ hmem
        simp only [u8to16_u16to8] at this
        rw [parseMonitors, this, hentry mon hmon]
    refine ⟨⟨_, hsave mon hmon⟩, ?_, ?_, rfl⟩
    · show (parseConfig P (P.dump (saveConfigJson P os s).1) s0).monitorOptions mon.getId = _
      rw [hloaded, hsave mon hmon]
    · intro o ho
      show (parseConfig P (P.dump (saveConfigJson P os s).1) s0).monitorOptions mon.getId = _
      rw [hloaded, ho]
      rfl
  · show (parseConfig P (P.dump (saveConfigJson P os s).1) s0).pollingEnabled = _
    rw [hrun, parseGeneral_generalJson]
  · show (parseConfig P (P.dump (saveConfigJson P os s).1) s0).globalEnabled = _
    rw [hrun, parseGeneral_generalJson]

set_option maxRecDepth 8000 in
/-- Witness of C3 (amended): the sample state, whose opacities are finite, saved with
the sample displays attached, then loaded into the statics of a fresh process. -/
theorem C3_save_load_round_trip_witness :
    (samplePlatform.parse
        (samplePlatform.dump (saveConfigJson samplePlatform sampleDisplays sampleState).1)
      = some (saveConfigJson samplePlatform sampleDisplays sampleState).1 ∧
      Monitor.mk 7 0 "DISPLAY1".data "MONITOR#A#1".data ∈ queryMonitors sampleDisplays ∧
      sampleState.monitorOptions "MONITOR#A#1".data = some ⟨⟨1056964608⟩, 3400, false⟩ ∧
      sampleState.pollingEnabled = true ∧ State.init.pollingEnabled = false) ∧
    (loadConfig samplePlatform
        (saveConfig samplePlatform sampleDisplays sampleState ⟨fun _ => none, []⟩).2
        State.init).1.monitorOptions "MONITOR#A#1".data
      = some ⟨⟨1056964608⟩, 3400, false⟩ ∧
    (loadConfig samplePlatform
        (saveConfig samplePlatform sampleDisplays sampleState ⟨fun _ => none, []⟩).2
        State.init).1.pollingEnabled = true := by
  have h := C3_save_load_round_trip samplePlatform sampleDisplays sampleState
    ⟨fun _ => none, []⟩ State.init rfl
    (by
      intro mon hmon o ho
      exact ⟨rfl, rfl⟩)
  exact ⟨⟨rfl, by decide, by decide, rfl, rfl⟩,
    (h.2.1 (Monitor.mk 7 0 "DISPLAY1".data "MONITOR#A#1".data) (by decide)).2.2.1
      ⟨⟨1056964608⟩, 3400, false⟩ (by decide),
    h.2.2.1⟩

/-! ## queryMonitors: order, prefix matching, last match -/

theorem fuseOne_handle (dd : DISPLAY_DEVICE) (m : Monitor) :
    (fuseOne dd m).handle = m.handle := by
  unfold fuseOne; split <;> rfl

theorem fuseOne_index (dd : DISPLAY_DEVICE) (m : Monitor) :
    (fuseOne dd m).index = m.index := by
  unfold fuseOne; split <;> rfl

theorem fuseAll_handle_index (entries : List DISPLAY_DEVICE) :
    ∀ m : Monitor, (fuseAll entries m).handle = m.handle ∧
      (fuseAll entries m).index = m.index := by
  induction entries with
  | nil => intro m; exact ⟨rfl, rfl⟩
  | cons dd rest ih =>
    intro m
    show (fuseAll rest (fuseOne dd m)).handle = m.handle ∧
      (fuseAll rest (fuseOne dd m)).index = m.index
    rw [(ih (fuseOne dd m)).1, (ih (fuseOne dd m)).2, fuseOne_handle, fuseOne_index]
    exact ⟨rfl, rfl⟩

theorem EnumDisplayMonitors_length (ds : List CoarseDisplay) :
    (EnumDisplayMonitors ds).length = ds.length := by
  have h : ∀ (l : List CoarseDisplay) (acc : List Monitor),
      (l.foldl MonitorEnumProc acc).length = acc.length + l.length := by
    intro l
    induction l with
    | nil => intro acc; simp
    | cons d rest ih =>
      intro acc
      rw [List.foldl_cons, ih]
      simp [MonitorEnumProc]
      omega
  simpa [EnumDisplayMonitors] using h ds []

/-- The truncate-and-compare test succeeds exactly when the coarse name is a prefix of
the detailed name. -/
theorem nameMatches_iff_append (s l : WString) :
    nameMatches s l = true ↔ ∃ t, s ++ t = l := by
  rw [nameMatches_iff]
  unfold truncate
  constructor
  · intro h
    by_cases hlen : l.length > s.length
    · rw [if_pos hlen] at h
      refine ⟨l.drop s.length, ?_⟩
      have h2 := List.take_append_drop s.length l
      rw [h] at h2
      exact h2
    · rw [if_neg hlen] at h
      exact ⟨[], by simp [h]⟩
  · rintro ⟨t, rfl⟩
    by_cases hlen : (s ++ t).length > s.length
    · rw [if_pos hlen]
      simp
    · rw [if_neg hlen]
      have ht : t = [] := by
        cases t with
        | nil => rfl
        | cons x xs => simp at hlen
      simp [ht]

theorem nameMatches_of_shorter (s l : WString) (h : l.length < s.length) :
    nameMatches s l = false := by
  cases hm : nameMatches s l with
  | false => rfl
  | true =>
    obtain ⟨t, ht⟩ := (nameMatches_iff_append s l).mp hm
    have hlen := congrArg List.length ht
    simp at hlen
    omega

/-- C13. Last match wins in queryMonitors: when the coarse display at position i is
matched by at least one detailed entry, the id of the descriptor at position i is the
DeviceID of the last matching entry in enumeration order; and in each iteration of the
while loop the entry at hand overwrites the id of every descriptor it matches. -/
theorem C13_last_match_wins (os : Displays) (i : Nat) (d : CoarseDisplay)
    (hd : os.coarse[i]? = some d) :
    (∀ e, ((detailedEntries os).filter
          (fun x => decide (truncate x.DeviceName d.szDevice = d.szDevice))).getLast? = some e →
        ((queryMonitors os)[i]?).map Monitor.getId = some e.DeviceID) ∧
    (∀ (a : Adapter) (dd : DISPLAY_DEVICE) (result : List Monitor), a.requery = some dd →
        ∀ (k : Nat) (m : Monitor), result[k]? = some m →
          truncate dd.DeviceName m.szDevice = m.szDevice →
          (adapterStep result a)[k]? = some (m.setId dd.DeviceID)) := by
  constructor
  · intro e hlast
    have hfilter : (detailedEntries os).filter
        (fun x => nameMatches (Monitor.new d i).szDevice x.DeviceName) =
        (detailedEntries os).filter
          (fun x => decide (truncate x.DeviceName d.szDevice = d.szDevice)) := by
      apply List.filter_congr
      intro x _
      simp [nameMatches, Monitor.new, eq_comm]
    rw [queryMonitors_getElem?, hd]
    simp only [Option.map_some', Monitor.getId]
    rw [fuseAll_id, hfilter, hlast]
  · intro a dd result ha k m hk hmatch
    have hm : nameMatches m.szDevice dd.DeviceName = true :=
      (nameMatches_iff _ _).mpr hmatch
    simp only [adapterStep, ha, fuse, List.getElem?_map, hk, Option.map_some', fuseOne, hm,
      if_true]

/-- Witness of C13: "DISPLAY1" is matched by the entry of adapter "DISPLAY1" and then
by the entry of adapter "DISPLAY10"; its id is the DeviceID of the second. -/
theorem C13_last_match_wins_witness :
    (sampleTwoMatches.coarse[0]? = some ⟨7, "DISPLAY1".data⟩ ∧
      (detailedEntries sampleTwoMatches).filter
          (fun x => decide (truncate x.DeviceName "DISPLAY1".data = "DISPLAY1".data))
        = [⟨"DISPLAY1\\Monitor0".data, "MONITOR#A#1".data⟩,
           ⟨"DISPLAY10\\Monitor0".data, "MONITOR#B#10".data⟩]) ∧
    ((queryMonitors sampleTwoMatches)[0]?).map Monitor.getId = some "MONITOR#B#10".data :=
  ⟨⟨by decide, by decide⟩,
   (C13_last_match_wins sampleTwoMatches 0 ⟨7, "DISPLAY1".data⟩ (by decide)).1
     ⟨"DISPLAY10\\Monitor0".data, "MONITOR#B#10".data⟩ (by decide)⟩

/-- C14. The fusion match test is the string-prefix relation: the truncate-and-compare
test of queryMonitors succeeds for a coarse name s and a detailed name l exactly when l
is s followed by some (possibly empty) rest.  So one detailed entry can match two coarse
descriptors with different names: with coarse names "DISPLAY1" and "DISPLAY10" and the
single detailed entry "DISPLAY10\Monitor0", both descriptors end with the DeviceID of
that entry. -/
theorem C14_match_is_prefix :
    (∀ s l : WString,
        (truncate l s = s ↔ ∃ t, s ++ t = l) ∧
        (nameMatches s l = true ↔ ∃ t, s ++ t = l)) ∧
    detailedEntries samplePrefixDisplays
      = [⟨"DISPLAY10\\Monitor0".data, "MONITOR#B#10".data⟩] ∧
    (queryMonitors samplePrefixDisplays).map (fun m => (m.szDevice, m.getId))
      = [("DISPLAY1".data, "MONITOR#B#10".data), ("DISPLAY10".data, "MONITOR#B#10".data)] := by
  refine ⟨?_, by decide, by decide⟩
  intro s l
  exact ⟨(nameMatches_iff s l).symm.trans (nameMatches_iff_append s l),
    nameMatches_iff_append s l⟩

/-- C15. Short detailed name: for a detailed entry whose device name is strictly
shorter than the szDevice of a descriptor, the truncation leaves the name as it is, the
comparison fails, and the loop body leaves the descriptor, its id included, as it was;
the same holds for that descriptor at its place in the result vector. -/
theorem C15_short_detailed_name (dd : DISPLAY_DEVICE) (m : Monitor)
    (hshort : dd.DeviceName.length < m.szDevice.length) :
    truncate dd.DeviceName m.szDevice = dd.DeviceName ∧
    nameMatches m.szDevice dd.DeviceName = false ∧
    fuseOne dd m = m ∧
    (∀ (result : List Monitor) (k : Nat), result[k]? = some m →
        (fuse dd result)[k]? = some m) := by
  have h1 : truncate dd.DeviceName m.szDevice = dd.DeviceName := by
    unfold truncate
    rw [if_neg (by omega)]
  have h2 := nameMatches_of_shorter m.szDevice dd.DeviceName hshort
  have h3 : fuseOne dd m = m := by simp [fuseOne, h2]
  refine ⟨h1, h2, h3, ?_⟩
  intro result k hk
  simp only [fuse, List.getElem?_map, hk, Option.map_some', h3]

/-- Witness of C15: the detailed name "DISPLAY1" against the descriptor of
"DISPLAY10". -/
theorem C15_short_detailed_name_witness :
    ("DISPLAY1".data.length < (Monitor.new ⟨9, "DISPLAY10".data⟩ 1).szDevice.length) ∧
    (truncate "DISPLAY1".data (Monitor.new ⟨9, "DISPLAY10".data⟩ 1).szDevice = "DISPLAY1".data ∧
      nameMatches (Monitor.new ⟨9, "DISPLAY10".data⟩ 1).szDevice "DISPLAY1".data = false ∧
      fuseOne ⟨"DISPLAY1".data, "MONITOR#A#1".data⟩ (Monitor.new ⟨9, "DISPLAY10".data⟩ 1)
        = Monitor.new ⟨9, "DISPLAY10".data⟩ 1) :=
  ⟨by decide,
   (C15_short_detailed_name ⟨"DISPLAY1".data, "MONITOR#A#1".data⟩
      (Monitor.new ⟨9, "DISPLAY10".data⟩ 1) (by decide)).1,
   (C15_short_detailed_name ⟨"DISPLAY1".data, "MONITOR#A#1".data⟩
      (Monitor.new ⟨9, "DISPLAY10".data⟩ 1) (by decide)).2.1,
   (C15_short_detailed_name ⟨"DISPLAY1".data, "MONITOR#A#1".data⟩
      (Monitor.new ⟨9, "DISPLAY10".data⟩ 1) (by decide)).2.2.1⟩

/-- C18. Order and index of queryMonitors: the result has as many descriptors as the
coarse enumeration has displays; the descriptor at position i has index i and the
handle and szDevice of the i-th coarse display; and an iteration of the while loop keeps
the length of the vector and the handle, index and szDevice at every position. -/
theorem C18_order_and_index (os : Displays) :
    (queryMonitors os).length = os.coarse.length ∧
    (∀ (i : Nat) (d : CoarseDisplay), os.coarse[i]? = some d →
        ∃ m, (queryMonitors os)[i]? = some m ∧
          m.index = i ∧ m.handle = d.handle ∧ m.szDevice = d.szDevice) ∧
    (∀ (result : List Monitor) (a : Adapter),
        (adapterStep result a).length = result.length ∧
        (adapterStep result a).map (fun m => (m.handle, m.index, m.szDevice))
          = result.map (fun m => (m.handle, m.index, m.szDevice))) ∧
    (queryMonitors os).map (fun m => (m.handle, m.index, m.szDevice))
      = (EnumDisplayMonitors os.coarse).map (fun m => (m.handle, m.index, m.szDevice)) := by
  refine ⟨?_, ?_, ?_, ?_⟩
  · rw [queryMonitors_eq_map, List.length_map, EnumDisplayMonitors_length]
  · intro i d hd
    refine ⟨fuseAll (detailedEntries os) (Monitor.new d i), ?_, ?_, ?_, ?_⟩
    · rw [queryMonitors_getElem?, hd]
      rfl
    · rw [(fuseAll_handle_index _ _).2]
      rfl
    · rw [(fuseAll_handle_index _ _).1]
      rfl
    · rw [fuseAll_szDevice]
      rfl
  · intro result a
    cases ha : a.requery with
    | none => simp [adapterStep, ha]
    | some dd =>
      simp only [adapterStep, ha, fuse, List.length_map, List.map_map, true_and]
      apply List.map_congr_left
      intro m _
      simp [fuseOne_handle, fuseOne_index, fuseOne_szDevice]
  · rw [queryMonitors_eq_map, List.map_map]
    apply List.map_congr_left
    intro m _
    simp [(fuseAll_handle_index _ m).1, (fuseAll_handle_index _ m).2, fuseAll_szDevice]

/-- Witness of C18: the second display of the sample displays. -/
theorem C18_order_and_index_witness :
    sampleDisplays.coarse[1]? = some ⟨9, "DISPLAY2".data⟩ ∧
    ∃ m, (queryMonitors sampleDisplays)[1]? = some m ∧
      m.index = 1 ∧ m.handle = 9 ∧ m.szDevice = "DISPLAY2".data :=
  ⟨by decide,
   (C18_order_and_index sampleDisplays).2.1 1 ⟨9, "DISPLAY2".data⟩ (by decide)⟩

/-! ## Setters, getters and loaders -/

theorem saveConfig_writes (P : Platform) (os : Displays) (s : State) (d : Disk) :
    (saveConfig P os s d).2.writes
      = d.writes ++ [(getConfigFilename P, P.dump (saveConfigJson P os s).1)] := rfl

theorem saveConfig_flags (P : Platform) (os : Displays) (s : State) (d : Disk) :
    (saveConfig P os s d).1.pollingEnabled = s.pollingEnabled ∧
      (saveConfig P os s d).1.globalEnabled = s.globalEnabled := by
  show (saveConfigJson P os s).2.pollingEnabled = _ ∧ (saveConfigJson P os s).2.globalEnabled = _
  rw [saveConfigJson_eq]
  exact ⟨(saveFold_state P (queryMonitors os) Json.null s).1,
    (saveFold_state P (queryMonitors os) Json.null s).2.1⟩

/-- C11. Asymmetric global setter: setDimmerEnabled(e) leaves the statics and the disk
as they are, with no write, when e is the current globalEnabled; when e differs it
hands exactly one text to the file gateway, the dump of the document built with
globalEnabled = e; in both cases isDimmerEnabled() returns e afterwards. -/
theorem C11_setDimmerEnabled (P : Platform) (os : Displays) (e : Bool) (s : State)
    (d : Disk) :
    (s.globalEnabled = e →
        setDimmerEnabled P os e s d = (s, d) ∧
        (setDimmerEnabled P os e s d).2.writes = d.writes) ∧
    (s.globalEnabled ≠ e →
        (setDimmerEnabled P os e s d).2.writes = d.writes ++
          [(getConfigFilename P,
            P.dump (saveConfigJson P os { s with globalEnabled := e }).1)]) ∧
    isDimmerEnabled (setDimmerEnabled P os e s d).1 = e := by
  refine ⟨?_, ?_, ?_⟩
  · intro h
    have hrun : setDimmerEnabled P os e s d = (s, d) := by
      simp [setDimmerEnabled, h]
    rw [hrun]
    exact ⟨rfl, rfl⟩
  · intro h
    have hrun : setDimmerEnabled P os e s d =
        saveConfig P os { s with globalEnabled := e } d := by
      simp [setDimmerEnabled, h]
    rw [hrun]
    exact saveConfig_writes P os _ d
  · by_cases h : s.globalEnabled = e
    · have hrun : setDimmerEnabled P os e s d = (s, d) := by
        simp [setDimmerEnabled, h]
      rw [hrun]
      exact h
    · have hrun : setDimmerEnabled P os e s d =
          saveConfig P os { s with globalEnabled := e } d := by
        simp [setDimmerEnabled, h]
      rw [hrun]
      exact (saveConfig_flags P os _ d).2

set_option maxRecDepth 8000 in
/-- Witness of C11: on the sample state globalEnabled is false; setting it to false
writes nothing, setting it to true writes once. -/
theorem C11_setDimmerEnabled_witness :
    (sampleState.globalEnabled = false ∧ sampleDisk.writes = []) ∧
    (setDimmerEnabled samplePlatform sampleDisplays false sampleState sampleDisk).2.writes
      = [] ∧
    (setDimmerEnabled samplePlatform sampleDisplays true sampleState sampleDisk).2.writes.length
      = 1 ∧
    isDimmerEnabled
      (setDimmerEnabled samplePlatform sampleDisplays true sampleState sampleDisk).1 = true := by
  have h1 := (C11_setDimmerEnabled samplePlatform sampleDisplays false sampleState
    sampleDisk).1 rfl
  have h2 := (C11_setDimmerEnabled samplePlatform sampleDisplays true sampleState
    sampleDisk).2.1 (by decide)
  refine ⟨⟨rfl, rfl⟩, h1.2, ?_,
    (C11_setDimmerEnabled samplePlatform sampleDisplays true sampleState sampleDisk).2.2⟩
  rw [h2]
  rfl

/-- C12. I/O-error asymmetry of the two loaders: when the read fails, loadConfig(name)
returns with the statics unchanged, while loadConfig() leaves the statics unchanged and
lets the exception out; when the read returns a text, both leave the statics as
parseConfig of that text does, and no exception leaves loadConfig(). -/
theorem C12_loader_asymmetry (P : Platform) (configName : WString) (d : Disk) (s : State) :
    (fileToString d (getConfigFilenameNamed P configName) = none →
        loadConfigNamed P configName d s = s) ∧
    (fileToString d (getConfigFilename P) = none →
        (loadConfig P d s).1 = s ∧ (loadConfig P d s).2 = true) ∧
    (∀ text, fileToString d (getConfigFilenameNamed P configName) = some text →
        loadConfigNamed P configName d s = parseConfig P text s) ∧
    (∀ text, fileToString d (getConfigFilename P) = some text →
        (loadConfig P d s).1 = parseConfig P text s ∧ (loadConfig P d s).2 = false) := by
  refine ⟨?_, ?_, ?_, ?_⟩
  · intro h
    simp only [loadConfigNamed, h]
  · intro h
    simp only [loadConfig, h]
    exact ⟨trivial, trivial⟩
  · intro text h
    simp only [loadConfigNamed, h]
  · intro text h
    simp only [loadConfig, h]
    exact ⟨trivial, trivial⟩

set_option maxRecDepth 8000 in
/-- Witness of C12: with no readable file the named loader returns the sample state and
the default loader lets the exception out; with "night.json" readable the named loader
applies its text. -/
theorem C12_loader_asymmetry_witness :
    (fileToString sampleDisk (getConfigFilenameNamed samplePlatform "night".data) = none ∧
      fileToString sampleDisk (getConfigFilename samplePlatform) = none ∧
      fileToString sampleNightDisk (getConfigFilenameNamed samplePlatform "night".data)
        = some sampleDocText) ∧
    loadConfigNamed samplePlatform "night".data sampleDisk sampleState = sampleState ∧
    ((loadConfig samplePlatform sampleDisk sampleState).1 = sampleState ∧
      (loadConfig samplePlatform sampleDisk sampleState).2 = true) ∧
    loadConfigNamed samplePlatform "night".data sampleNightDisk sampleState
      = parseConfig samplePlatform sampleDocText sampleState :=
  ⟨⟨rfl, rfl, by decide⟩,
   (C12_loader_asymmetry samplePlatform "night".data sampleDisk sampleState).1 rfl,
   (C12_loader_asymmetry samplePlatform "night".data sampleDisk sampleState).2.1 rfl,
   (C12_loader_asymmetry samplePlatform "night".data sampleNightDisk sampleState).2.2.1
      sampleDocText (by decide)⟩

/-- C17. Getters read through options: each getter returns the field of the entry
options(m) yields, which is the stored value when m's id is cached and 0.0, -1, true when
it is not; the statics after a getter are those after options(m): both flags keep their
values and every entry already in the cache keeps its values.  The getters reach
neither saveConfig nor the file gateway. -/
theorem C17_getters_read_through_options (s : State) (monitor : Monitor) :
    (getMonitorOpacity s monitor = ((options s monitor).1.opacity, (options s monitor).2) ∧
      getMonitorTemperature s monitor
        = ((options s monitor).1.temperature, (options s monitor).2) ∧
      isMonitorEnabled s monitor = ((options s monitor).1.enabled, (options s monitor).2)) ∧
    (∀ o, s.monitorOptions monitor.getId = some o →
        getMonitorOpacity s monitor = (o.opacity, s) ∧
        getMonitorTemperature s monitor = (o.temperature, s) ∧
        isMonitorEnabled s monitor = (o.enabled, s)) ∧
    (s.monitorOptions monitor.getId = none →
        (getMonitorOpacity s monitor).1 = ⟨0⟩ ∧
        (getMonitorTemperature s monitor).1 = -1 ∧
        (isMonitorEnabled s monitor).1 = true) ∧
    ((options s monitor).2.pollingEnabled = s.pollingEnabled ∧
      (options s monitor).2.globalEnabled = s.globalEnabled ∧
      ∀ id o, s.monitorOptions id = some o →
        (options s monitor).2.monitorOptions id = some o) := by
  refine ⟨⟨rfl, rfl, rfl⟩, ?_, ?_, (options_snd_flags s monitor).1,
    (options_snd_flags s monitor).2, ?_⟩
  · intro o h
    simp only [getMonitorOpacity, getMonitorTemperature, isMonitorEnabled,
      options_of_some s monitor o h]
    exact ⟨trivial, trivial, trivial⟩
  · intro h
    simp only [getMonitorOpacity, getMonitorTemperature, isMonitorEnabled,
      options_of_none s monitor h]
    exact ⟨rfl, rfl, rfl⟩
  · intro id o ho
    rw [options_snd_monitorOptions, ho]
    by_cases hid : id = monitor.getId
    · rw [if_pos hid]; rfl
    · rw [if_neg hid]

/-- Witness of C17: the getters on the cached id "MONITOR#A#1" and on the id
"DISPLAY2", which the sample state does not hold. -/
theorem C17_getters_read_through_options_witness :
    (sampleState.monitorOptions (Monitor.mk 7 0 "DISPLAY1".data "MONITOR#A#1".data).getId
        = some ⟨⟨1056964608⟩, 3400, false⟩ ∧
      sampleState.monitorOptions (Monitor.new ⟨9, "DISPLAY2".data⟩ 1).getId = none) ∧
    getMonitorTemperature sampleState (Monitor.mk 7 0 "DISPLAY1".data "MONITOR#A#1".data)
      = (3400, sampleState) ∧
    (getMonitorTemperature sampleState (Monitor.new ⟨9, "DISPLAY2".data⟩ 1)).1 = -1 :=
  ⟨⟨by decide, by decide⟩,
   ((C17_getters_read_through_options sampleState
      (Monitor.mk 7 0 "DISPLAY1".data "MONITOR#A#1".data)).2.1
      ⟨⟨1056964608⟩, 3400, false⟩ (by decide)).2.1,
   ((C17_getters_read_through_options sampleState
      (Monitor.new ⟨9, "DISPLAY2".data⟩ 1)).2.2.1 (by decide)).2.1⟩

end Dimmer
